import Mathlib

/-!
Verification of the nutrient-outline library (calc_EER, the per-nutrient outline
generators and generate_nutritional_guideline) against its specification.

The Python source is embedded shallowly:
  * floats are modelled as exact rationals;
  * the Python builtin round (round-half-to-even) is modelled by pyRound and,
    for round(x, 1), by pyRound1;
  * a raised ValueError is modelled by the value none, a normal return by some;
    the four sequential ValueError raises at the top of every generator are
    collapsed into a single disjunctive guard (invalidArguments), which returns
    none in exactly the same cases;
  * each Python dict with fixed keys becomes a structure (Outline, Guideline);
    the two nested dicts of the aggregator output become association lists so
    that their key sets remain observable.
-/

namespace MealPlan

/-- Round-half-to-even on an exact rational, modelling the Python builtin round. -/
def pyRound (q : ℚ) : ℤ :=
  if q - ⌊q⌋ < 1/2 then ⌊q⌋
  else if 1/2 < q - ⌊q⌋ then ⌊q⌋ + 1
  else if ⌊q⌋ % 2 = 0 then ⌊q⌋ else ⌊q⌋ + 1

/-- Round to one decimal place, modelling the Python builtin round(x, 1). -/
def pyRound1 (q : ℚ) : ℚ := (pyRound (q * 10) : ℚ) / 10

/-- The gender strings accepted by every validation block. -/
def validGenders : List String := ["M", "F"]

/-- The activity-level strings accepted by every validation block. -/
def validActivityLevels : List String := ["inactive", "low_active", "active", "very_active"]

/-- The dict returned by each generator: recommended_intake, lower_limit,
upper_limit and units. -/
structure Outline where
  recommended_intake : ℚ
  lower_limit : ℚ
  upper_limit : ℚ
  units : String
deriving Repr, DecidableEq

/-- The shared validation block at the top of every outline generator
(age below 14, unknown gender, unknown activity level, or non-positive EER). -/
def invalidArguments (age : ℚ) (gender activity_level : String) (eer : ℚ) : Prop :=
  ¬ (age ≥ 14) ∨ gender ∉ validGenders ∨ activity_level ∉ validActivityLevels ∨ ¬ (eer > 0)

instance (age : ℚ) (gender activity_level : String) (eer : ℚ) :
    Decidable (invalidArguments age gender activity_level eer) := by
  unfold invalidArguments; infer_instance

/-- The validation block of calc_EER (no EER argument). -/
def invalidProfile (age : ℚ) (gender activity_level : String) : Prop :=
  ¬ (age ≥ 14) ∨ gender ∉ validGenders ∨ activity_level ∉ validActivityLevels

instance (age : ℚ) (gender activity_level : String) :
    Decidable (invalidProfile age gender activity_level) := by
  unfold invalidProfile; infer_instance

/-- EER calculator: one of 16 linear regression formulas selected by age band,
gender and activity level; adolescent formulas add a flat 20 kcal. The Python
function raises ValueError on invalid input (modelled by none). -/
def calc_EER (age height weight : ℚ) (gender activity_level : String) : Option ℚ :=
  if invalidProfile age gender activity_level then none
  else if 14 ≤ age ∧ age < 19 then
    if gender = "M" then
      if activity_level = "inactive" then
        some (-447.51 + 3.68 * age + 13.01 * height + 13.15 * weight + 20)
      else if activity_level = "low_active" then
        some (19.12 + 3.68 * age + 8.62 * height + 20.28 * weight + 20)
      else if activity_level = "active" then
        some (-388.19 + 3.68 * age + 12.66 * height + 20.46 * weight + 20)
      else if activity_level = "very_active" then
        some (-671.75 + 3.68 * age + 15.38 * height + 23.25 * weight + 20)
      else none
    else
      if activity_level = "inactive" then
        some (55.59 - 22.25 * age + 8.43 * height + 17.07 * weight + 20)
      else if activity_level = "low_active" then
        some (-297.54 - 22.25 * age + 12.77 * height + 14.73 * weight + 20)
      else if activity_level = "active" then
        some (-189.55 - 22.25 * age + 11.74 * height + 18.34 * weight + 20)
      else if activity_level = "very_active" then
        some (-709.59 - 22.25 * age + 18.22 * height + 14.25 * weight + 20)
      else none
  else
    if gender = "M" then
      if activity_level = "inactive" then
        some (753.07 - 10.83 * age + 6.50 * height + 14.10 * weight)
      else if activity_level = "low_active" then
        some (581.47 - 10.83 * age + 8.30 * height + 14.94 * weight)
      else if activity_level = "active" then
        some (1004.82 - 10.83 * age + 6.52 * height + 15.91 * weight)
      else if activity_level = "very_active" then
        some (-517.88 - 10.83 * age + 15.61 * height + 19.11 * weight)
      else none
    else
      if activity_level = "inactive" then
        some (584.90 - 7.01 * age + 5.72 * height + 11.71 * weight)
      else if activity_level = "low_active" then
        some (575.77 - 7.01 * age + 6.60 * height + 12.14 * weight)
      else if activity_level = "active" then
        some (710.25 - 7.01 * age + 6.54 * height + 12.34 * weight)
      else if activity_level = "very_active" then
        some (511.83 - 7.01 * age + 9.07 * height + 12.56 * weight)
      else none

/-- Post-validation computation of generate_carbohydrates_outline: fixed
fractions of EER at 4 kcal per gram. -/
def carbohydrates_body (eer : ℚ) : Outline :=
  { recommended_intake := (pyRound (0.55 * eer / 4) : ℚ),
    lower_limit := (pyRound (0.45 * eer / 4) : ℚ),
    upper_limit := (pyRound (0.65 * eer / 4) : ℚ),
    units := "g" }

def generate_carbohydrates_outline (age : ℚ) (gender activity_level : String) (eer : ℚ) :
    Option Outline :=
  if invalidArguments age gender activity_level eer then none
  else some (carbohydrates_body eer)

def fiber_activity_multipliers : String → ℚ
  | "inactive" => 0.95
  | "low_active" => 1.0
  | "active" => 1.1
  | "very_active" => 1.2
  | _ => 0

/-- Post-validation computation of generate_fiber_outline: age/gender-banded AI,
activity multiplier, floor at 14 g per 1000 kcal of EER, then upper limit at
1.5 times the rounded recommendation. -/
def fiber_body (age : ℚ) (gender activity_level : String) (eer : ℚ) : Outline :=
  let base : ℚ × ℚ :=
    if 14 ≤ age ∧ age ≤ 18 then
      if gender = "M" then (38, 30) else (26, 21)
    else
      if gender = "M" then (if 50 < age then (21, 17) else (30, 24))
      else (if 50 < age then (14, 11) else (21, 17))
  let eer_based_fiber : ℚ := eer / 1000 * 14
  let ri : ℚ := (pyRound (max (base.1 * fiber_activity_multipliers activity_level)
    eer_based_fiber) : ℚ)
  { recommended_intake := ri,
    lower_limit := base.2,
    upper_limit := (pyRound (1.5 * ri) : ℚ),
    units := "g" }

def generate_fiber_outline (age : ℚ) (gender activity_level : String) (eer : ℚ) :
    Option Outline :=
  if invalidArguments age gender activity_level eer then none
  else some (fiber_body age gender activity_level eer)

def protein_activity_multipliers : String → ℚ
  | "inactive" => 1.0
  | "low_active" => 1.1
  | "active" => 1.3
  | "very_active" => 1.5
  | _ => 0

/-- Post-validation computation of generate_protein_outline: age/gender-banded
RDA and EAR, activity multiplier, EER-ratio adjustment clamped to 0.9 - 1.2,
and an upper limit from an estimated body weight constant at 2.0 g per kg,
floored at twice the recommendation. -/
def protein_body (age : ℚ) (gender activity_level : String) (eer : ℚ) : Outline :=
  let base : ℚ × ℚ :=
    if 14 ≤ age ∧ age ≤ 18 then
      if gender = "M" then (52, 43) else (46, 38)
    else
      if gender = "M" then (56, 46) else (46, 38)
  let reference_eer : ℚ := if gender = "M" then 2500 else 2000
  let eer_adjustment : ℚ := min 1.2 (max 0.9 (eer / reference_eer))
  let ri : ℚ := (pyRound (base.1 * protein_activity_multipliers activity_level *
    eer_adjustment) : ℚ)
  let estimated_weight : ℚ :=
    if 14 ≤ age ∧ age ≤ 18 then (if gender = "M" then 60 else 50)
    else (if gender = "M" then 70 else 57)
  { recommended_intake := ri,
    lower_limit := base.2,
    upper_limit := max (pyRound (2.0 * estimated_weight) : ℚ) (2 * ri),
    units := "g" }

def generate_protein_outline (age : ℚ) (gender activity_level : String) (eer : ℚ) :
    Option Outline :=
  if invalidArguments age gender activity_level eer then none
  else some (protein_body age gender activity_level eer)

/-- Post-validation computation of generate_fat_outline: fixed fractions of EER
at 9 kcal per gram. -/
def fat_body (eer : ℚ) : Outline :=
  { recommended_intake := (pyRound (0.275 * eer / 9) : ℚ),
    lower_limit := (pyRound (0.2 * eer / 9) : ℚ),
    upper_limit := (pyRound (0.35 * eer / 9) : ℚ),
    units := "g" }

def generate_fat_outline (age : ℚ) (gender activity_level : String) (eer : ℚ) :
    Option Outline :=
  if invalidArguments age gender activity_level eer then none
  else some (fat_body eer)

def vitamin_a_activity_multipliers : String → ℚ
  | "inactive" => 1.0
  | "low_active" => 1.03
  | "active" => 1.06
  | "very_active" => 1.1
  | _ => 0

/-- Post-validation computation of generate_vitamin_a_outline (the standalone
common-pattern generator, not the dead copy embedded in calc_EER): banded RDA
and EAR, activity multiplier, EER adjustment clamped to 0.85 - 1.15, age-banded
UL; the source rounds the recommendation twice and also rounds both limits. -/
def vitamin_a_body (age : ℚ) (gender activity_level : String) (eer : ℚ) : Outline :=
  let base : ℚ × ℚ :=
    if 14 ≤ age ∧ age ≤ 18 then
      if gender = "M" then (900, 630) else (700, 485)
    else
      if gender = "M" then (900, 625) else (700, 500)
  let reference_eer : ℚ := if gender = "M" then 2500 else 2000
  let eer_adjustment : ℚ := min 1.15 (max 0.85 (eer / reference_eer))
  let ri : ℚ := (pyRound (base.1 * vitamin_a_activity_multipliers activity_level *
    eer_adjustment) : ℚ)
  let ul : ℚ := if 14 ≤ age ∧ age ≤ 18 then 2800 else 3000
  { recommended_intake := (pyRound ri : ℚ),
    lower_limit := (pyRound base.2 : ℚ),
    upper_limit := (pyRound ul : ℚ),
    units := "mcg" }

def generate_vitamin_a_outline (age : ℚ) (gender activity_level : String) (eer : ℚ) :
    Option Outline :=
  if invalidArguments age gender activity_level eer then none
  else some (vitamin_a_body age gender activity_level eer)

def vitamin_c_activity_multipliers : String → ℚ
  | "inactive" => 1.0
  | "low_active" => 1.05
  | "active" => 1.1
  | "very_active" => 1.15
  | _ => 0

/-- Post-validation computation of generate_vitamin_c_outline. -/
def vitamin_c_body (age : ℚ) (gender activity_level : String) (eer : ℚ) : Outline :=
  let base : ℚ × ℚ :=
    if 14 ≤ age ∧ age ≤ 18 then
      if gender = "M" then (75, 63) else (65, 56)
    else
      if gender = "M" then (90, 75) else (75, 60)
  let reference_eer : ℚ := if gender = "M" then 2500 else 2000
  let eer_adjustment : ℚ := min 1.1 (max 0.9 (eer / reference_eer))
  { recommended_intake := (pyRound (base.1 *
      vitamin_c_activity_multipliers activity_level * eer_adjustment) : ℚ),
    lower_limit := base.2,
    upper_limit := if 14 ≤ age ∧ age ≤ 18 then 1800 else 2000,
    units := "mg" }

def generate_vitamin_c_outline (age : ℚ) (gender activity_level : String) (eer : ℚ) :
    Option Outline :=
  if invalidArguments age gender activity_level eer then none
  else some (vitamin_c_body age gender activity_level eer)

def vitamin_d_activity_multipliers : String → ℚ
  | "inactive" => 1.0
  | "low_active" => 1.05
  | "active" => 1.1
  | "very_active" => 1.15
  | _ => 0

/-- Post-validation computation of generate_vitamin_d_outline: gender-neutral
RDA banded at age 70, clamp 0.95 - 1.1, UL 100 in both age branches. -/
def vitamin_d_body (age : ℚ) (gender activity_level : String) (eer : ℚ) : Outline :=
  let base : ℚ × ℚ := if 14 ≤ age ∧ age ≤ 70 then (15, 10) else (20, 10)
  let reference_eer : ℚ := if gender = "M" then 2500 else 2000
  let eer_adjustment : ℚ := min 1.1 (max 0.95 (eer / reference_eer))
  { recommended_intake := (pyRound (base.1 *
      vitamin_d_activity_multipliers activity_level * eer_adjustment) : ℚ),
    lower_limit := base.2,
    upper_limit := if 14 ≤ age ∧ age ≤ 18 then 100 else 100,
    units := "mcg" }

def generate_vitamin_d_outline (age : ℚ) (gender activity_level : String) (eer : ℚ) :
    Option Outline :=
  if invalidArguments age gender activity_level eer then none
  else some (vitamin_d_body age gender activity_level eer)

def vitamin_b6_activity_multipliers : String → ℚ
  | "inactive" => 1.0
  | "low_active" => 1.03
  | "active" => 1.07
  | "very_active" => 1.1
  | _ => 0

/-- Post-validation computation of generate_vitamin_b6_outline: three age bands
(14-18, 19-50, otherwise), clamp 0.95 - 1.05, rounding to one decimal, UL 100. -/
def vitamin_b6_body (age : ℚ) (gender activity_level : String) (eer : ℚ) : Outline :=
  let base : ℚ × ℚ :=
    if 14 ≤ age ∧ age ≤ 18 then
      if gender = "M" then (1.3, 1.1) else (1.2, 1.0)
    else if 19 ≤ age ∧ age ≤ 50 then
      if gender = "M" then (1.3, 1.1) else (1.3, 1.1)
    else
      if gender = "M" then (1.7, 1.4) else (1.5, 1.3)
  let reference_eer : ℚ := if gender = "M" then 2500 else 2000
  let eer_adjustment : ℚ := min 1.05 (max 0.95 (eer / reference_eer))
  { recommended_intake := pyRound1 (base.1 *
      vitamin_b6_activity_multipliers activity_level * eer_adjustment),
    lower_limit := base.2,
    upper_limit := 100,
    units := "mg" }

def generate_vitamin_b6_outline (age : ℚ) (gender activity_level : String) (eer : ℚ) :
    Option Outline :=
  if invalidArguments age gender activity_level eer then none
  else some (vitamin_b6_body age gender activity_level eer)

def vitamin_e_activity_multipliers : String → ℚ
  | "inactive" => 1.0
  | "low_active" => 1.03
  | "active" => 1.07
  | "very_active" => 1.1
  | _ => 0

/-- Post-validation computation of generate_vitamin_e_outline: the same base in
both age branches, clamp 0.95 - 1.05, rounding to one decimal, UL 1000. -/
def vitamin_e_body (age : ℚ) (gender activity_level : String) (eer : ℚ) : Outline :=
  let base : ℚ × ℚ := if 14 ≤ age ∧ age ≤ 18 then (15, 12) else (15, 12)
  let reference_eer : ℚ := if gender = "M" then 2500 else 2000
  let eer_adjustment : ℚ := min 1.05 (max 0.95 (eer / reference_eer))
  { recommended_intake := pyRound1 (base.1 *
      vitamin_e_activity_multipliers activity_level * eer_adjustment),
    lower_limit := base.2,
    upper_limit := 1000,
    units := "mg" }

def generate_vitamin_e_outline (age : ℚ) (gender activity_level : String) (eer : ℚ) :
    Option Outline :=
  if invalidArguments age gender activity_level eer then none
  else some (vitamin_e_body age gender activity_level eer)

def vitamin_k_activity_multipliers : String → ℚ
  | "inactive" => 1.0
  | "low_active" => 1.02
  | "active" => 1.04
  | "very_active" => 1.05
  | _ => 0

/-- Post-validation computation of generate_vitamin_k_outline: banded AI, clamp
0.97 - 1.03, integer rounding, upper limit at 3 times the recommendation. -/
def vitamin_k_body (age : ℚ) (gender activity_level : String) (eer : ℚ) : Outline :=
  let base : ℚ × ℚ :=
    if 14 ≤ age ∧ age ≤ 18 then
      if gender = "M" then (75, 60) else (75, 60)
    else
      if gender = "M" then (120, 96) else (90, 72)
  let reference_eer : ℚ := if gender = "M" then 2500 else 2000
  let eer_adjustment : ℚ := min 1.03 (max 0.97 (eer / reference_eer))
  let ri : ℚ := (pyRound (base.1 * vitamin_k_activity_multipliers activity_level *
    eer_adjustment) : ℚ)
  { recommended_intake := ri,
    lower_limit := base.2,
    upper_limit := 3 * ri,
    units := "mcg" }

def generate_vitamin_k_outline (age : ℚ) (gender activity_level : String) (eer : ℚ) :
    Option Outline :=
  if invalidArguments age gender activity_level eer then none
  else some (vitamin_k_body age gender activity_level eer)

def thiamin_activity_multipliers : String → ℚ
  | "inactive" => 1.0
  | "low_active" => 1.05
  | "active" => 1.1
  | "very_active" => 1.15
  | _ => 0

/-- Post-validation computation of generate_thiamin_outline: banded RDA, clamp
0.9 - 1.2, rounding to one decimal, upper limit at round(5 times, 1). -/
def thiamin_body (age : ℚ) (gender activity_level : String) (eer : ℚ) : Outline :=
  let base : ℚ × ℚ :=
    if 14 ≤ age ∧ age ≤ 18 then
      if gender = "M" then (1.2, 1.0) else (1.0, 0.9)
    else
      if gender = "M" then (1.2, 1.0) else (1.1, 0.9)
  let reference_eer : ℚ := if gender = "M" then 2500 else 2000
  let eer_adjustment : ℚ := min 1.2 (max 0.9 (eer / reference_eer))
  let ri : ℚ := pyRound1 (base.1 * thiamin_activity_multipliers activity_level *
    eer_adjustment)
  { recommended_intake := ri,
    lower_limit := base.2,
    upper_limit := pyRound1 (5 * ri),
    units := "mg" }

def generate_thiamin_outline (age : ℚ) (gender activity_level : String) (eer : ℚ) :
    Option Outline :=
  if invalidArguments age gender activity_level eer then none
  else some (thiamin_body age gender activity_level eer)

def vitamin_b12_activity_multipliers : String → ℚ
  | "inactive" => 1.0
  | "low_active" => 1.02
  | "active" => 1.04
  | "very_active" => 1.05
  | _ => 0

/-- Post-validation computation of generate_vitamin_b12_outline: a single base
for all ages and genders, clamp 0.97 - 1.03, rounding to one decimal, upper
limit at round(10 times, 1). -/
def vitamin_b12_body (gender activity_level : String) (eer : ℚ) : Outline :=
  let reference_eer : ℚ := if gender = "M" then 2500 else 2000
  let eer_adjustment : ℚ := min 1.03 (max 0.97 (eer / reference_eer))
  let ri : ℚ := pyRound1 (2.4 * vitamin_b12_activity_multipliers activity_level *
    eer_adjustment)
  { recommended_intake := ri,
    lower_limit := 2.0,
    upper_limit := pyRound1 (10 * ri),
    units := "mcg" }

def generate_vitamin_b12_outline (age : ℚ) (gender activity_level : String) (eer : ℚ) :
    Option Outline :=
  if invalidArguments age gender activity_level eer then none
  else some (vitamin_b12_body gender activity_level eer)

def riboflavin_activity_multipliers : String → ℚ
  | "inactive" => 1.0
  | "low_active" => 1.05
  | "active" => 1.1
  | "very_active" => 1.15
  | _ => 0

/-- Post-validation computation of generate_riboflavin_outline: banded RDA,
clamp 0.9 - 1.2, rounding to one decimal, upper limit at round(5 times, 1). -/
def riboflavin_body (age : ℚ) (gender activity_level : String) (eer : ℚ) : Outline :=
  let base : ℚ × ℚ :=
    if 14 ≤ age ∧ age ≤ 18 then
      if gender = "M" then (1.3, 1.1) else (1.0, 0.9)
    else
      if gender = "M" then (1.3, 1.1) else (1.1, 0.9)
  let reference_eer : ℚ := if gender = "M" then 2500 else 2000
  let eer_adjustment : ℚ := min 1.2 (max 0.9 (eer / reference_eer))
  let ri : ℚ := pyRound1 (base.1 * riboflavin_activity_multipliers activity_level *
    eer_adjustment)
  { recommended_intake := ri,
    lower_limit := base.2,
    upper_limit := pyRound1 (5 * ri),
    units := "mg" }

def generate_riboflavin_outline (age : ℚ) (gender activity_level : String) (eer : ℚ) :
    Option Outline :=
  if invalidArguments age gender activity_level eer then none
  else some (riboflavin_body age gender activity_level eer)

def folate_activity_multipliers : String → ℚ
  | "inactive" => 1.0
  | "low_active" => 1.03
  | "active" => 1.07
  | "very_active" => 1.1
  | _ => 0

/-- Post-validation computation of generate_folate_outline: the same base in
both age branches, clamp 0.95 - 1.05, integer rounding, age-banded UL. -/
def folate_body (age : ℚ) (gender activity_level : String) (eer : ℚ) : Outline :=
  let base : ℚ × ℚ := if 14 ≤ age ∧ age ≤ 18 then (400, 320) else (400, 320)
  let reference_eer : ℚ := if gender = "M" then 2500 else 2000
  let eer_adjustment : ℚ := min 1.05 (max 0.95 (eer / reference_eer))
  { recommended_intake := (pyRound (base.1 *
      folate_activity_multipliers activity_level * eer_adjustment) : ℚ),
    lower_limit := base.2,
    upper_limit := if 14 ≤ age ∧ age ≤ 18 then 800 else 1000,
    units := "mcg" }

def generate_folate_outline (age : ℚ) (gender activity_level : String) (eer : ℚ) :
    Option Outline :=
  if invalidArguments age gender activity_level eer then none
  else some (folate_body age gender activity_level eer)

def niacin_activity_multipliers : String → ℚ
  | "inactive" => 1.0
  | "low_active" => 1.05
  | "active" => 1.1
  | "very_active" => 1.15
  | _ => 0

/-- Post-validation computation of generate_niacin_outline: gender-dependent
base equal in both age branches, clamp 0.9 - 1.2, rounding to one decimal,
age-banded UL. -/
def niacin_body (age : ℚ) (gender activity_level : String) (eer : ℚ) : Outline :=
  let base : ℚ × ℚ :=
    if 14 ≤ age ∧ age ≤ 18 then
      if gender = "M" then (16, 12) else (14, 11)
    else
      if gender = "M" then (16, 12) else (14, 11)
  let reference_eer : ℚ := if gender = "M" then 2500 else 2000
  let eer_adjustment : ℚ := min 1.2 (max 0.9 (eer / reference_eer))
  { recommended_intake := pyRound1 (base.1 *
      niacin_activity_multipliers activity_level * eer_adjustment),
    lower_limit := base.2,
    upper_limit := if 14 ≤ age ∧ age ≤ 18 then 30 else 35,
    units := "mg" }

def generate_niacin_outline (age : ℚ) (gender activity_level : String) (eer : ℚ) :
    Option Outline :=
  if invalidArguments age gender activity_level eer then none
  else some (niacin_body age gender activity_level eer)

def choline_activity_multipliers : String → ℚ
  | "inactive" => 1.0
  | "low_active" => 1.03
  | "active" => 1.07
  | "very_active" => 1.1
  | _ => 0

/-- Post-validation computation of generate_choline_outline: banded AI, clamp
0.95 - 1.05, integer rounding, age-banded UL. -/
def choline_body (age : ℚ) (gender activity_level : String) (eer : ℚ) : Outline :=
  let base : ℚ × ℚ :=
    if 14 ≤ age ∧ age ≤ 18 then
      if gender = "M" then (550, 440) else (400, 320)
    else
      if gender = "M" then (550, 440) else (425, 340)
  let reference_eer : ℚ := if gender = "M" then 2500 else 2000
  let eer_adjustment : ℚ := min 1.05 (max 0.95 (eer / reference_eer))
  { recommended_intake := (pyRound (base.1 *
      choline_activity_multipliers activity_level * eer_adjustment) : ℚ),
    lower_limit := base.2,
    upper_limit := if 14 ≤ age ∧ age ≤ 18 then 3000 else 3500,
    units := "mg" }

def generate_choline_outline (age : ℚ) (gender activity_level : String) (eer : ℚ) :
    Option Outline :=
  if invalidArguments age gender activity_level eer then none
  else some (choline_body age gender activity_level eer)

def pantothenic_acid_activity_multipliers : String → ℚ
  | "inactive" => 1.0
  | "low_active" => 1.03
  | "active" => 1.07
  | "very_active" => 1.1
  | _ => 0

/-- Post-validation computation of generate_pantothenic_acid_outline: a single
base for all ages and genders, clamp 0.95 - 1.05, rounding to one decimal,
upper limit at round(5 times, 1). -/
def pantothenic_acid_body (gender activity_level : String) (eer : ℚ) : Outline :=
  let reference_eer : ℚ := if gender = "M" then 2500 else 2000
  let eer_adjustment : ℚ := min 1.05 (max 0.95 (eer / reference_eer))
  let ri : ℚ := pyRound1 (5 * pantothenic_acid_activity_multipliers activity_level *
    eer_adjustment)
  { recommended_intake := ri,
    lower_limit := 4,
    upper_limit := pyRound1 (5 * ri),
    units := "mg" }

def generate_pantothenic_acid_outline (age : ℚ) (gender activity_level : String) (eer : ℚ) :
    Option Outline :=
  if invalidArguments age gender activity_level eer then none
  else some (pantothenic_acid_body gender activity_level eer)

def biotin_activity_multipliers : String → ℚ
  | "inactive" => 1.0
  | "low_active" => 1.02
  | "active" => 1.04
  | "very_active" => 1.05
  | _ => 0

/-- Post-validation computation of generate_biotin_outline: gender-neutral
banded AI, clamp 0.97 - 1.03, integer rounding, upper limit at 10 times the
recommendation. -/
def biotin_body (age : ℚ) (gender activity_level : String) (eer : ℚ) : Outline :=
  let base : ℚ × ℚ := if 14 ≤ age ∧ age ≤ 18 then (25, 20) else (30, 24)
  let reference_eer : ℚ := if gender = "M" then 2500 else 2000
  let eer_adjustment : ℚ := min 1.03 (max 0.97 (eer / reference_eer))
  let ri : ℚ := (pyRound (base.1 * biotin_activity_multipliers activity_level *
    eer_adjustment) : ℚ)
  { recommended_intake := ri,
    lower_limit := base.2,
    upper_limit := 10 * ri,
    units := "mcg" }

def generate_biotin_outline (age : ℚ) (gender activity_level : String) (eer : ℚ) :
    Option Outline :=
  if invalidArguments age gender activity_level eer then none
  else some (biotin_body age gender activity_level eer)

def calcium_activity_multipliers : String → ℚ
  | "inactive" => 1.0
  | "low_active" => 1.03
  | "active" => 1.07
  | "very_active" => 1.1
  | _ => 0

/-- Post-validation computation of generate_calcium_outline: bands 14-18,
19-50 and otherwise (in the last band males up to 70 differ from females and
males above 70), clamp 0.95 - 1.05, integer rounding, age-banded UL. -/
def calcium_body (age : ℚ) (gender activity_level : String) (eer : ℚ) : Outline :=
  let base : ℚ × ℚ :=
    if 14 ≤ age ∧ age ≤ 18 then (1300, 1000)
    else if 19 ≤ age ∧ age ≤ 50 then (1000, 800)
    else if gender = "M" ∧ age ≤ 70 then (1000, 800)
    else (1200, 1000)
  let reference_eer : ℚ := if gender = "M" then 2500 else 2000
  let eer_adjustment : ℚ := min 1.05 (max 0.95 (eer / reference_eer))
  { recommended_intake := (pyRound (base.1 *
      calcium_activity_multipliers activity_level * eer_adjustment) : ℚ),
    lower_limit := base.2,
    upper_limit :=
      if 14 ≤ age ∧ age ≤ 18 then 3000
      else if 19 ≤ age ∧ age ≤ 50 then 2500
      else 2000,
    units := "mg" }

def generate_calcium_outline (age : ℚ) (gender activity_level : String) (eer : ℚ) :
    Option Outline :=
  if invalidArguments age gender activity_level eer then none
  else some (calcium_body age gender activity_level eer)

def chloride_activity_multipliers : String → ℚ
  | "inactive" => 1.0
  | "low_active" => 1.05
  | "active" => 1.1
  | "very_active" => 1.15
  | _ => 0

/-- Post-validation computation of generate_chloride_outline: gender-neutral AI
in bands 14-18, 19-50 and otherwise, clamp 0.9 - 1.1, integer rounding,
UL 3600. -/
def chloride_body (age : ℚ) (gender activity_level : String) (eer : ℚ) : Outline :=
  let base : ℚ × ℚ :=
    if 14 ≤ age ∧ age ≤ 18 then (2300, 1800)
    else if 19 ≤ age ∧ age ≤ 50 then (2300, 1800)
    else (2000, 1500)
  let reference_eer : ℚ := if gender = "M" then 2500 else 2000
  let eer_adjustment : ℚ := min 1.1 (max 0.9 (eer / reference_eer))
  { recommended_intake := (pyRound (base.1 *
      chloride_activity_multipliers activity_level * eer_adjustment) : ℚ),
    lower_limit := base.2,
    upper_limit := 3600,
    units := "mg" }

def generate_chloride_outline (age : ℚ) (gender activity_level : String) (eer : ℚ) :
    Option Outline :=
  if invalidArguments age gender activity_level eer then none
  else some (chloride_body age gender activity_level eer)

def chromium_activity_multipliers : String → ℚ
  | "inactive" => 1.0
  | "low_active" => 1.03
  | "active" => 1.07
  | "very_active" => 1.1
  | _ => 0

/-- Post-validation computation of generate_chromium_outline: gender-dependent
AI in bands 14-18, 19-50 and otherwise, clamp 0.95 - 1.05, integer rounding,
upper limit at 10 times the recommendation. -/
def chromium_body (age : ℚ) (gender activity_level : String) (eer : ℚ) : Outline :=
  let base : ℚ × ℚ :=
    if 14 ≤ age ∧ age ≤ 18 then
      if gender = "M" then (35, 28) else (24, 19)
    else if 19 ≤ age ∧ age ≤ 50 then
      if gender = "M" then (35, 28) else (25, 20)
    else
      if gender = "M" then (30, 24) else (20, 16)
  let reference_eer : ℚ := if gender = "M" then 2500 else 2000
  let eer_adjustment : ℚ := min 1.05 (max 0.95 (eer / reference_eer))
  let ri : ℚ := (pyRound (base.1 * chromium_activity_multipliers activity_level *
    eer_adjustment) : ℚ)
  { recommended_intake := ri,
    lower_limit := base.2,
    upper_limit := 10 * ri,
    units := "mcg" }

def generate_chromium_outline (age : ℚ) (gender activity_level : String) (eer : ℚ) :
    Option Outline :=
  if invalidArguments age gender activity_level eer then none
  else some (chromium_body age gender activity_level eer)

def copper_activity_multipliers : String → ℚ
  | "inactive" => 1.0
  | "low_active" => 1.03
  | "active" => 1.07
  | "very_active" => 1.1
  | _ => 0

/-- Post-validation computation of generate_copper_outline: gender-neutral
banded RDA, clamp 0.95 - 1.05, integer rounding, age-banded UL. -/
def copper_body (age : ℚ) (gender activity_level : String) (eer : ℚ) : Outline :=
  let base : ℚ × ℚ := if 14 ≤ age ∧ age ≤ 18 then (890, 700) else (900, 700)
  let reference_eer : ℚ := if gender = "M" then 2500 else 2000
  let eer_adjustment : ℚ := min 1.05 (max 0.95 (eer / reference_eer))
  { recommended_intake := (pyRound (base.1 *
      copper_activity_multipliers activity_level * eer_adjustment) : ℚ),
    lower_limit := base.2,
    upper_limit := if 14 ≤ age ∧ age ≤ 18 then 8000 else 10000,
    units := "mcg" }

def generate_copper_outline (age : ℚ) (gender activity_level : String) (eer : ℚ) :
    Option Outline :=
  if invalidArguments age gender activity_level eer then none
  else some (copper_body age gender activity_level eer)

def fluoride_activity_multipliers : String → ℚ
  | "inactive" => 1.0
  | "low_active" => 1.02
  | "active" => 1.04
  | "very_active" => 1.05
  | _ => 0

/-- Post-validation computation of generate_fluoride_outline: banded AI, clamp
0.97 - 1.03, rounding to one decimal, UL 10.0. -/
def fluoride_body (age : ℚ) (gender activity_level : String) (eer : ℚ) : Outline :=
  let base : ℚ × ℚ :=
    if 14 ≤ age ∧ age ≤ 18 then
      if gender = "M" then (3.0, 2.4) else (3.0, 2.4)
    else
      if gender = "M" then (4.0, 3.2) else (3.0, 2.4)
  let reference_eer : ℚ := if gender = "M" then 2500 else 2000
  let eer_adjustment : ℚ := min 1.03 (max 0.97 (eer / reference_eer))
  { recommended_intake := pyRound1 (base.1 *
      fluoride_activity_multipliers activity_level * eer_adjustment),
    lower_limit := base.2,
    upper_limit := 10.0,
    units := "mg" }

def generate_fluoride_outline (age : ℚ) (gender activity_level : String) (eer : ℚ) :
    Option Outline :=
  if invalidArguments age gender activity_level eer then none
  else some (fluoride_body age gender activity_level eer)

def iodine_activity_multipliers : String → ℚ
  | "inactive" => 1.0
  | "low_active" => 1.02
  | "active" => 1.04
  | "very_active" => 1.05
  | _ => 0

/-- Post-validation computation of generate_iodine_outline: the same base in
both age branches, clamp 0.97 - 1.03, integer rounding, age-banded UL. -/
def iodine_body (age : ℚ) (gender activity_level : String) (eer : ℚ) : Outline :=
  let base : ℚ × ℚ := if 14 ≤ age ∧ age ≤ 18 then (150, 95) else (150, 95)
  let reference_eer : ℚ := if gender = "M" then 2500 else 2000
  let eer_adjustment : ℚ := min 1.03 (max 0.97 (eer / reference_eer))
  { recommended_intake := (pyRound (base.1 *
      iodine_activity_multipliers activity_level * eer_adjustment) : ℚ),
    lower_limit := base.2,
    upper_limit := if 14 ≤ age ∧ age ≤ 18 then 900 else 1100,
    units := "mcg" }

def generate_iodine_outline (age : ℚ) (gender activity_level : String) (eer : ℚ) :
    Option Outline :=
  if invalidArguments age gender activity_level eer then none
  else some (iodine_body age gender activity_level eer)

def iron_activity_multipliers : String → ℚ
  | "inactive" => 1.0
  | "low_active" => 1.03
  | "active" => 1.07
  | "very_active" => 1.1
  | _ => 0

/-- Post-validation computation of generate_iron_outline: gender-dependent RDA
in bands 14-18 and 19-50, a gender-neutral base otherwise, clamp 0.95 - 1.05,
rounding to one decimal, UL 45. -/
def iron_body (age : ℚ) (gender activity_level : String) (eer : ℚ) : Outline :=
  let base : ℚ × ℚ :=
    if 14 ≤ age ∧ age ≤ 18 then
      if gender = "M" then (11, 7.7) else (15, 7.9)
    else if 19 ≤ age ∧ age ≤ 50 then
      if gender = "M" then (8, 6) else (18, 8.1)
    else (8, 6)
  let reference_eer : ℚ := if gender = "M" then 2500 else 2000
  let eer_adjustment : ℚ := min 1.05 (max 0.95 (eer / reference_eer))
  { recommended_intake := pyRound1 (base.1 *
      iron_activity_multipliers activity_level * eer_adjustment),
    lower_limit := base.2,
    upper_limit := 45,
    units := "mg" }

def generate_iron_outline (age : ℚ) (gender activity_level : String) (eer : ℚ) :
    Option Outline :=
  if invalidArguments age gender activity_level eer then none
  else some (iron_body age gender activity_level eer)

def magnesium_activity_multipliers : String → ℚ
  | "inactive" => 1.0
  | "low_active" => 1.03
  | "active" => 1.07
  | "very_active" => 1.1
  | _ => 0

/-- Post-validation computation of generate_magnesium_outline: gender-dependent
RDA in bands 14-18, 19-30 and otherwise, clamp 0.95 - 1.05, integer rounding,
UL 600. -/
def magnesium_body (age : ℚ) (gender activity_level : String) (eer : ℚ) : Outline :=
  let base : ℚ × ℚ :=
    if 14 ≤ age ∧ age ≤ 18 then
      if gender = "M" then (410, 360) else (360, 300)
    else if 19 ≤ age ∧ age ≤ 30 then
      if gender = "M" then (400, 330) else (310, 255)
    else
      if gender = "M" then (420, 350) else (320, 265)
  let reference_eer : ℚ := if gender = "M" then 2500 else 2000
  let eer_adjustment : ℚ := min 1.05 (max 0.95 (eer / reference_eer))
  { recommended_intake := (pyRound (base.1 *
      magnesium_activity_multipliers activity_level * eer_adjustment) : ℚ),
    lower_limit := base.2,
    upper_limit := 600,
    units := "mg" }

def generate_magnesium_outline (age : ℚ) (gender activity_level : String) (eer : ℚ) :
    Option Outline :=
  if invalidArguments age gender activity_level eer then none
  else some (magnesium_body age gender activity_level eer)

def manganese_activity_multipliers : String → ℚ
  | "inactive" => 1.0
  | "low_active" => 1.02
  | "active" => 1.04
  | "very_active" => 1.05
  | _ => 0

/-- Post-validation computation of generate_manganese_outline: banded AI, clamp
0.97 - 1.03, rounding to one decimal, age-banded UL. -/
def manganese_body (age : ℚ) (gender activity_level : String) (eer : ℚ) : Outline :=
  let base : ℚ × ℚ :=
    if 14 ≤ age ∧ age ≤ 18 then
      if gender = "M" then (2.2, 1.8) else (1.6, 1.3)
    else
      if gender = "M" then (2.3, 1.9) else (1.8, 1.5)
  let reference_eer : ℚ := if gender = "M" then 2500 else 2000
  let eer_adjustment : ℚ := min 1.03 (max 0.97 (eer / reference_eer))
  { recommended_intake := pyRound1 (base.1 *
      manganese_activity_multipliers activity_level * eer_adjustment),
    lower_limit := base.2,
    upper_limit := if 14 ≤ age ∧ age ≤ 18 then 9.0 else 11.0,
    units := "mg" }

def generate_manganese_outline (age : ℚ) (gender activity_level : String) (eer : ℚ) :
    Option Outline :=
  if invalidArguments age gender activity_level eer then none
  else some (manganese_body age gender activity_level eer)

def molybdenum_activity_multipliers : String → ℚ
  | "inactive" => 1.0
  | "low_active" => 1.02
  | "active" => 1.04
  | "very_active" => 1.05
  | _ => 0

/-- Post-validation computation of generate_molybdenum_outline: gender-neutral
banded RDA, clamp 0.97 - 1.03, integer rounding, age-banded UL. -/
def molybdenum_body (age : ℚ) (gender activity_level : String) (eer : ℚ) : Outline :=
  let base : ℚ × ℚ := if 14 ≤ age ∧ age ≤ 18 then (43, 34) else (45, 34)
  let reference_eer : ℚ := if gender = "M" then 2500 else 2000
  let eer_adjustment : ℚ := min 1.03 (max 0.97 (eer / reference_eer))
  { recommended_intake := (pyRound (base.1 *
      molybdenum_activity_multipliers activity_level * eer_adjustment) : ℚ),
    lower_limit := base.2,
    upper_limit := if 14 ≤ age ∧ age ≤ 18 then 1700 else 2000,
    units := "mcg" }

def generate_molybdenum_outline (age : ℚ) (gender activity_level : String) (eer : ℚ) :
    Option Outline :=
  if invalidArguments age gender activity_level eer then none
  else some (molybdenum_body age gender activity_level eer)

def phosphorus_activity_multipliers : String → ℚ
  | "inactive" => 1.0
  | "low_active" => 1.03
  | "active" => 1.07
  | "very_active" => 1.1
  | _ => 0

/-- Post-validation computation of generate_phosphorus_outline: gender-neutral
banded RDA, clamp 0.95 - 1.05, integer rounding, UL 4000 up to age 70 and 3000
above. -/
def phosphorus_body (age : ℚ) (gender activity_level : String) (eer : ℚ) : Outline :=
  let base : ℚ × ℚ := if 14 ≤ age ∧ age ≤ 18 then (1250, 1055) else (700, 580)
  let reference_eer : ℚ := if gender = "M" then 2500 else 2000
  let eer_adjustment : ℚ := min 1.05 (max 0.95 (eer / reference_eer))
  { recommended_intake := (pyRound (base.1 *
      phosphorus_activity_multipliers activity_level * eer_adjustment) : ℚ),
    lower_limit := base.2,
    upper_limit :=
      if 14 ≤ age ∧ age ≤ 18 then 4000
      else if age ≤ 70 then 4000 else 3000,
    units := "mg" }

def generate_phosphorus_outline (age : ℚ) (gender activity_level : String) (eer : ℚ) :
    Option Outline :=
  if invalidArguments age gender activity_level eer then none
  else some (phosphorus_body age gender activity_level eer)

def potassium_activity_multipliers : String → ℚ
  | "inactive" => 1.0
  | "low_active" => 1.05
  | "active" => 1.1
  | "very_active" => 1.15
  | _ => 0

/-- Post-validation computation of generate_potassium_outline: banded AI, clamp
0.9 - 1.1, integer rounding, upper limit at 2 times the recommendation. -/
def potassium_body (age : ℚ) (gender activity_level : String) (eer : ℚ) : Outline :=
  let base : ℚ × ℚ :=
    if 14 ≤ age ∧ age ≤ 18 then
      if gender = "M" then (3000, 2400) else (2300, 1840)
    else
      if gender = "M" then (3400, 2720) else (2600, 2080)
  let reference_eer : ℚ := if gender = "M" then 2500 else 2000
  let eer_adjustment : ℚ := min 1.1 (max 0.9 (eer / reference_eer))
  let ri : ℚ := (pyRound (base.1 * potassium_activity_multipliers activity_level *
    eer_adjustment) : ℚ)
  { recommended_intake := ri,
    lower_limit := base.2,
    upper_limit := 2 * ri,
    units := "mg" }

def generate_potassium_outline (age : ℚ) (gender activity_level : String) (eer : ℚ) :
    Option Outline :=
  if invalidArguments age gender activity_level eer then none
  else some (potassium_body age gender activity_level eer)

def selenium_activity_multipliers : String → ℚ
  | "inactive" => 1.0
  | "low_active" => 1.02
  | "active" => 1.04
  | "very_active" => 1.05
  | _ => 0

/-- Post-validation computation of generate_selenium_outline: the same base in
both age branches, clamp 0.97 - 1.03, integer rounding, UL 400. -/
def selenium_body (age : ℚ) (gender activity_level : String) (eer : ℚ) : Outline :=
  let base : ℚ × ℚ := if 14 ≤ age ∧ age ≤ 18 then (55, 45) else (55, 45)
  let reference_eer : ℚ := if gender = "M" then 2500 else 2000
  let eer_adjustment : ℚ := min 1.03 (max 0.97 (eer / reference_eer))
  { recommended_intake := (pyRound (base.1 *
      selenium_activity_multipliers activity_level * eer_adjustment) : ℚ),
    lower_limit := base.2,
    upper_limit := 400,
    units := "mcg" }

def generate_selenium_outline (age : ℚ) (gender activity_level : String) (eer : ℚ) :
    Option Outline :=
  if invalidArguments age gender activity_level eer then none
  else some (selenium_body age gender activity_level eer)

def sodium_activity_multipliers : String → ℚ
  | "inactive" => 1.0
  | "low_active" => 1.05
  | "active" => 1.15
  | "very_active" => 1.2
  | _ => 0

/-- Post-validation computation of generate_sodium_outline: gender-neutral AI
in bands 14-50, 51-70 and otherwise, clamp 0.85 - 1.15, integer rounding,
upper limit at the CDRR value 2300. -/
def sodium_body (age : ℚ) (gender activity_level : String) (eer : ℚ) : Outline :=
  let base : ℚ × ℚ :=
    if 14 ≤ age ∧ age ≤ 50 then (1500, 1200)
    else if 51 ≤ age ∧ age ≤ 70 then (1300, 1040)
    else (1200, 960)
  let reference_eer : ℚ := if gender = "M" then 2500 else 2000
  let eer_adjustment : ℚ := min 1.15 (max 0.85 (eer / reference_eer))
  { recommended_intake := (pyRound (base.1 *
      sodium_activity_multipliers activity_level * eer_adjustment) : ℚ),
    lower_limit := base.2,
    upper_limit := 2300,
    units := "mg" }

def generate_sodium_outline (age : ℚ) (gender activity_level : String) (eer : ℚ) :
    Option Outline :=
  if invalidArguments age gender activity_level eer then none
  else some (sodium_body age gender activity_level eer)

def zinc_activity_multipliers : String → ℚ
  | "inactive" => 1.0
  | "low_active" => 1.03
  | "active" => 1.07
  | "very_active" => 1.1
  | _ => 0

/-- Post-validation computation of generate_zinc_outline: banded RDA, clamp
0.95 - 1.05, rounding to one decimal, age-banded UL. -/
def zinc_body (age : ℚ) (gender activity_level : String) (eer : ℚ) : Outline :=
  let base : ℚ × ℚ :=
    if 14 ≤ age ∧ age ≤ 18 then
      if gender = "M" then (11, 8.5) else (9, 7.3)
    else
      if gender = "M" then (11, 9.4) else (8, 6.8)
  let reference_eer : ℚ := if gender = "M" then 2500 else 2000
  let eer_adjustment : ℚ := min 1.05 (max 0.95 (eer / reference_eer))
  { recommended_intake := pyRound1 (base.1 *
      zinc_activity_multipliers activity_level * eer_adjustment),
    lower_limit := base.2,
    upper_limit := if 14 ≤ age ∧ age ≤ 18 then 34 else 40,
    units := "mg" }

def generate_zinc_outline (age : ℚ) (gender activity_level : String) (eer : ℚ) :
    Option Outline :=
  if invalidArguments age gender activity_level eer then none
  else some (zinc_body age gender activity_level eer)

/-- The aggregator output: three sections, each an association list from
nutrient name to outline, in the order of the source dict literal. -/
structure Guideline where
  macronutrients : List (String × Outline)
  vitamins : List (String × Outline)
  minerals : List (String × Outline)
deriving Repr, DecidableEq

/-- generate_nutritional_guideline: calls calc_EER once, passes the shared EER
to every generator, and assembles the three-section report. A raised ValueError
anywhere propagates (none), so no partial aggregate is ever produced. -/
def generate_nutritional_guideline (age height weight : ℚ) (gender activity_level : String) :
    Option Guideline :=
  match calc_EER age height weight gender activity_level with
  | none => none
  | some eer =>
  match generate_carbohydrates_outline age gender activity_level eer with
  | none => none
  | some carbohydrate_outline =>
  match generate_fiber_outline age gender activity_level eer with
  | none => none
  | some fiber_outline =>
  match generate_protein_outline age gender activity_level eer with
  | none => none
  | some protein_outline =>
  match generate_fat_outline age gender activity_level eer with
  | none => none
  | some fat_outline =>
  match generate_vitamin_a_outline age gender activity_level eer with
  | none => none
  | some vitamin_a_outline =>
  match generate_vitamin_c_outline age gender activity_level eer with
  | none => none
  | some vitamin_c_outline =>
  match generate_vitamin_d_outline age gender activity_level eer with
  | none => none
  | some vitamin_d_outline =>
  match generate_vitamin_b6_outline age gender activity_level eer with
  | none => none
  | some vitamin_b6_outline =>
  match generate_vitamin_e_outline age gender activity_level eer with
  | none => none
  | some vitamin_e_outline =>
  match generate_vitamin_k_outline age gender activity_level eer with
  | none => none
  | some vitamin_k_outline =>
  match generate_thiamin_outline age gender activity_level eer with
  | none => none
  | some thiamin_outline =>
  match generate_vitamin_b12_outline age gender activity_level eer with
  | none => none
  | some vitamin_b12_outline =>
  match generate_riboflavin_outline age gender activity_level eer with
  | none => none
  | some riboflavin_outline =>
  match generate_folate_outline age gender activity_level eer with
  | none => none
  | some folate_outline =>
  match generate_niacin_outline age gender activity_level eer with
  | none => none
  | some niacin_outline =>
  match generate_choline_outline age gender activity_level eer with
  | none => none
  | some choline_outline =>
  match generate_pantothenic_acid_outline age gender activity_level eer with
  | none => none
  | some pantothenic_acid_outline =>
  match generate_biotin_outline age gender activity_level eer with
  | none => none
  | some biotin_outline =>
  match generate_calcium_outline age gender activity_level eer with
  | none => none
  | some calcium_outline =>
  match generate_chloride_outline age gender activity_level eer with
  | none => none
  | some chloride_outline =>
  match generate_chromium_outline age gender activity_level eer with
  | none => none
  | some chromium_outline =>
  match generate_copper_outline age gender activity_level eer with
  | none => none
  | some copper_outline =>
  match generate_fluoride_outline age gender activity_level eer with
  | none => none
  | some fluoride_outline =>
  match generate_iodine_outline age gender activity_level eer with
  | none => none
  | some iodine_outline =>
  match generate_iron_outline age gender activity_level eer with
  | none => none
  | some iron_outline =>
  match generate_magnesium_outline age gender activity_level eer with
  | none => none
  | some magnesium_outline =>
  match generate_manganese_outline age gender activity_level eer with
  | none => none
  | some manganese_outline =>
  match generate_molybdenum_outline age gender activity_level eer with
  | none => none
  | some molybdenum_outline =>
  match generate_phosphorus_outline age gender activity_level eer with
  | none => none
  | some phosphorus_outline =>
  match generate_potassium_outline age gender activity_level eer with
  | none => none
  | some potassium_outline =>
  match generate_selenium_outline age gender activity_level eer with
  | none => none
  | some selenium_outline =>
  match generate_sodium_outline age gender activity_level eer with
  | none => none
  | some sodium_outline =>
  match generate_zinc_outline age gender activity_level eer with
  | none => none
  | some zinc_outline =>
  some (
    { macronutrients :=
        [("carbohydrates", carbohydrate_outline),
         ("fiber", fiber_outline),
         ("protein", protein_outline),
         ("fat", fat_outline)],
      vitamins :=
        [("vitamin_a", vitamin_a_outline),
         ("vitamin_c", vitamin_c_outline),
         ("vitamin_d", vitamin_d_outline),
         ("vitamin_b6", vitamin_b6_outline),
         ("vitamin_e", vitamin_e_outline),
         ("vitamin_k", vitamin_k_outline),
         ("thiamin", thiamin_outline),
         ("vitamin_b12", vitamin_b12_outline),
         ("riboflavin", riboflavin_outline),
         ("folate", folate_outline),
         ("niacin", niacin_outline),
         ("choline", choline_outline),
         ("pantothenic_acid", pantothenic_acid_outline),
         ("biotin", biotin_outline)],
      minerals :=
        [("calcium", calcium_outline),
         ("chloride", chloride_outline),
         ("chromium", chromium_outline),
         ("copper", copper_outline),
         ("fluoride", fluoride_outline),
         ("iodine", iodine_outline),
         ("iron", iron_outline),
         ("magnesium", magnesium_outline),
         ("manganese", manganese_outline),
         ("molybdenum", molybdenum_outline),
         ("phosphorus", phosphorus_outline),
         ("potassium", potassium_outline),
         ("selenium", selenium_outline),
         ("sodium", sodium_outline),
         ("zinc", zinc_outline)] } : Guideline)

/-- Requirement lower_limit less-or-equal recommended_intake less-or-equal
upper_limit, together with the generator call succeeding. -/
def OutlineInv : Option Outline → Prop
  | none => False
  | some o => o.lower_limit ≤ o.recommended_intake ∧ o.recommended_intake ≤ o.upper_limit

theorem floor_le_pyRound (q : ℚ) : ⌊q⌋ ≤ pyRound q := by
  unfold pyRound; split_ifs <;> omega

theorem pyRound_le_floor_add_one (q : ℚ) : pyRound q ≤ ⌊q⌋ + 1 := by
  unfold pyRound; split_ifs <;> omega

theorem pyRound_mono {a b : ℚ} (h : a ≤ b) : pyRound a ≤ pyRound b := by
  have hfab : ⌊a⌋ ≤ ⌊b⌋ := Int.floor_le_floor h
  rcases lt_or_eq_of_le hfab with hlt | heq
  · calc pyRound a ≤ ⌊a⌋ + 1 := pyRound_le_floor_add_one a
      _ ≤ ⌊b⌋ := hlt
      _ ≤ pyRound b := floor_le_pyRound b
  · by_cases ha : a - ⌊a⌋ < 1/2
    · have h1 : pyRound a = ⌊a⌋ := by unfold pyRound; rw [if_pos ha]
      rw [h1, heq]; exact floor_le_pyRound b
    · push_neg at ha
      by_cases hb : 1/2 < b - ⌊b⌋
      · have h2 : pyRound b = ⌊b⌋ + 1 := by
          unfold pyRound
          rw [if_neg (by push_neg; linarith), if_pos hb]
        rw [h2, ← heq]; exact pyRound_le_floor_add_one a
      · push_neg at hb
        have hfa : (⌊a⌋ : ℚ) = (⌊b⌋ : ℚ) := by exact_mod_cast heq
        have hab : a = b := by linarith
        rw [hab]

theorem pyRound_intCast (n : ℤ) : pyRound (n : ℚ) = n := by
  unfold pyRound
  rw [Int.floor_intCast]
  rw [if_pos (by norm_num)]

theorem pyRound_nonneg {q : ℚ} (h : 0 ≤ q) : 0 ≤ pyRound q := by
  have h1 : (0:ℤ) ≤ ⌊q⌋ := Int.floor_nonneg.mpr h
  exact h1.trans (floor_le_pyRound q)

theorem pyRound1_mono {a b : ℚ} (h : a ≤ b) : pyRound1 a ≤ pyRound1 b := by
  unfold pyRound1
  have h1 := pyRound_mono (show a * 10 ≤ b * 10 by linarith)
  have hc : ((pyRound (a * 10) : ℚ)) ≤ ((pyRound (b * 10) : ℚ)) := by exact_mod_cast h1
  linarith

theorem pyRound1_idem (x : ℚ) : pyRound1 (pyRound1 x) = pyRound1 x := by
  unfold pyRound1
  rw [div_mul_cancel₀ _ (by norm_num : (10:ℚ) ≠ 0), pyRound_intCast]

theorem pyRound1_le_pyRound1_mul (x k : ℚ) (hk : 1 ≤ k) (h0 : 0 ≤ pyRound1 x) :
    pyRound1 x ≤ pyRound1 (k * pyRound1 x) := by
  calc pyRound1 x = pyRound1 (pyRound1 x) := (pyRound1_idem x).symm
    _ ≤ pyRound1 (k * pyRound1 x) := pyRound1_mono (le_mul_of_one_le_left h0 hk)

theorem intCast_le_pyRound_mul (n : ℤ) (k : ℚ) (hk : 1 ≤ k) (h0 : 0 ≤ (n : ℚ)) :
    (n : ℚ) ≤ (pyRound (k * (n : ℚ)) : ℚ) := by
  have h1 : (n : ℚ) ≤ k * n := le_mul_of_one_le_left h0 hk
  have h2 := pyRound_mono h1
  rw [pyRound_intCast] at h2
  exact_mod_cast h2

theorem clamp_bounds {lo hi : ℚ} (x : ℚ) (h : lo ≤ hi) :
    lo ≤ min hi (max lo x) ∧ min hi (max lo x) ≤ hi :=
  ⟨le_min h (le_max_left _ _), min_le_left _ _⟩

theorem pyRound_mul_bounds (base m c m1 m2 c1 c2 : ℚ) {L U : ℚ}
    (hb : 0 ≤ base) (hm1 : 0 ≤ m1) (hc1 : 0 ≤ c1)
    (hm : m1 ≤ m ∧ m ≤ m2) (hc : c1 ≤ c ∧ c ≤ c2)
    (hL : L ≤ (pyRound (base * m1 * c1) : ℚ)) (hU : (pyRound (base * m2 * c2) : ℚ) ≤ U) :
    L ≤ (pyRound (base * m * c) : ℚ) ∧ (pyRound (base * m * c) : ℚ) ≤ U := by
  have hm0 : 0 ≤ m := hm1.trans hm.1
  have hc0 : 0 ≤ c := hc1.trans hc.1
  have k1 : base * m1 * c1 ≤ base * m * c :=
    mul_le_mul (mul_le_mul_of_nonneg_left hm.1 hb) hc.1 hc1 (mul_nonneg hb hm0)
  have k2 : base * m * c ≤ base * m2 * c2 :=
    mul_le_mul (mul_le_mul_of_nonneg_left hm.2 hb) hc.2 hc0
      (mul_nonneg hb (hm0.trans hm.2))
  constructor
  · exact hL.trans (by exact_mod_cast pyRound_mono k1)
  · exact le_trans (by exact_mod_cast pyRound_mono k2) hU

theorem pyRound1_mul_bounds (base m c m1 m2 c1 c2 : ℚ) {L U : ℚ}
    (hb : 0 ≤ base) (hm1 : 0 ≤ m1) (hc1 : 0 ≤ c1)
    (hm : m1 ≤ m ∧ m ≤ m2) (hc : c1 ≤ c ∧ c ≤ c2)
    (hL : L ≤ pyRound1 (base * m1 * c1)) (hU : pyRound1 (base * m2 * c2) ≤ U) :
    L ≤ pyRound1 (base * m * c) ∧ pyRound1 (base * m * c) ≤ U := by
  have hm0 : 0 ≤ m := hm1.trans hm.1
  have hc0 : 0 ≤ c := hc1.trans hc.1
  have k1 : base * m1 * c1 ≤ base * m * c :=
    mul_le_mul (mul_le_mul_of_nonneg_left hm.1 hb) hc.1 hc1 (mul_nonneg hb hm0)
  have k2 : base * m * c ≤ base * m2 * c2 :=
    mul_le_mul (mul_le_mul_of_nonneg_left hm.2 hb) hc.2 hc0
      (mul_nonneg hb (hm0.trans hm.2))
  exact ⟨hL.trans (pyRound1_mono k1), (pyRound1_mono k2).trans hU⟩

theorem pyRound_mul_bounds_mulUL (base m c m1 m2 c1 c2 k : ℚ) {L : ℚ}
    (hb : 0 ≤ base) (hm1 : 0 ≤ m1) (hc1 : 0 ≤ c1) (hk : 1 ≤ k) (hL0 : 0 ≤ L)
    (hm : m1 ≤ m ∧ m ≤ m2) (hc : c1 ≤ c ∧ c ≤ c2)
    (hL : L ≤ (pyRound (base * m1 * c1) : ℚ)) :
    L ≤ (pyRound (base * m * c) : ℚ) ∧
      (pyRound (base * m * c) : ℚ) ≤ k * (pyRound (base * m * c) : ℚ) := by
  have h := pyRound_mul_bounds base m c m1 m2 c1 c2 hb hm1 hc1 hm hc hL
    (le_refl ((pyRound (base * m2 * c2) : ℚ)))
  refine ⟨h.1, ?_⟩
  have h0 : (0:ℚ) ≤ (pyRound (base * m * c) : ℚ) := hL0.trans h.1
  exact le_mul_of_one_le_left h0 hk

theorem pyRound1_mul_bounds_round1UL (base m c m1 m2 c1 c2 k : ℚ) {L : ℚ}
    (hb : 0 ≤ base) (hm1 : 0 ≤ m1) (hc1 : 0 ≤ c1) (hk : 1 ≤ k) (hL0 : 0 ≤ L)
    (hm : m1 ≤ m ∧ m ≤ m2) (hc : c1 ≤ c ∧ c ≤ c2)
    (hL : L ≤ pyRound1 (base * m1 * c1)) :
    L ≤ pyRound1 (base * m * c) ∧
      pyRound1 (base * m * c) ≤ pyRound1 (k * pyRound1 (base * m * c)) := by
  have h := pyRound1_mul_bounds base m c m1 m2 c1 c2 hb hm1 hc1 hm hc hL
    (le_refl (pyRound1 (base * m2 * c2)))
  exact ⟨h.1, pyRound1_le_pyRound1_mul _ k hk (hL0.trans h.1)⟩

theorem not_invalidArguments {age : ℚ} {gender activity_level : String} {eer : ℚ}
    (h1 : 14 ≤ age) (h2 : gender ∈ validGenders) (h3 : activity_level ∈ validActivityLevels)
    (h4 : 0 < eer) : ¬ invalidArguments age gender activity_level eer := by
  unfold invalidArguments
  push_neg
  exact ⟨h1, h2, h3, h4⟩

theorem not_invalidProfile {age : ℚ} {gender activity_level : String}
    (h1 : 14 ≤ age) (h2 : gender ∈ validGenders) (h3 : activity_level ∈ validActivityLevels) :
    ¬ invalidProfile age gender activity_level := by
  unfold invalidProfile
  push_neg
  exact ⟨h1, h2, h3⟩

theorem not_invalidArguments_iff (age : ℚ) (gender activity_level : String) (eer : ℚ) :
    ¬ invalidArguments age gender activity_level eer ↔
      (14 ≤ age ∧ gender ∈ validGenders ∧ activity_level ∈ validActivityLevels ∧ 0 < eer) := by
  unfold invalidArguments
  push_neg
  exact Iff.rfl

theorem not_invalidProfile_iff (age : ℚ) (gender activity_level : String) :
    ¬ invalidProfile age gender activity_level ↔
      (14 ≤ age ∧ gender ∈ validGenders ∧ activity_level ∈ validActivityLevels) := by
  unfold invalidProfile
  push_neg
  exact Iff.rfl

theorem guard_isSome_iff {c : Prop} [Decidable c] (b : Outline) :
    (if c then (none : Option Outline) else some b).isSome ↔ ¬ c := by
  split_ifs with h <;> simp [h]

theorem mem_validGenders_iff (g : String) : g ∈ validGenders ↔ g = "M" ∨ g = "F" := by
  simp [validGenders]

theorem mem_validActivityLevels_iff (a : String) :
    a ∈ validActivityLevels ↔
      a = "inactive" ∨ a = "low_active" ∨ a = "active" ∨ a = "very_active" := by
  simp [validActivityLevels]

theorem fiber_mult_bounds (a : String) (h : a ∈ validActivityLevels) :
    0.95 ≤ fiber_activity_multipliers a ∧ fiber_activity_multipliers a ≤ 1.2 := by
  fin_cases h <;> norm_num [fiber_activity_multipliers]

theorem protein_mult_bounds (a : String) (h : a ∈ validActivityLevels) :
    1 ≤ protein_activity_multipliers a ∧ protein_activity_multipliers a ≤ 1.5 := by
  fin_cases h <;> norm_num [protein_activity_multipliers]

theorem vitamin_a_mult_bounds (a : String) (h : a ∈ validActivityLevels) :
    1 ≤ vitamin_a_activity_multipliers a ∧ vitamin_a_activity_multipliers a ≤ 1.1 := by
  fin_cases h <;> norm_num [vitamin_a_activity_multipliers]

theorem vitamin_c_mult_bounds (a : String) (h : a ∈ validActivityLevels) :
    1 ≤ vitamin_c_activity_multipliers a ∧ vitamin_c_activity_multipliers a ≤ 1.15 := by
  fin_cases h <;> norm_num [vitamin_c_activity_multipliers]

theorem vitamin_d_mult_bounds (a : String) (h : a ∈ validActivityLevels) :
    1 ≤ vitamin_d_activity_multipliers a ∧ vitamin_d_activity_multipliers a ≤ 1.15 := by
  fin_cases h <;> norm_num [vitamin_d_activity_multipliers]

theorem vitamin_b6_mult_bounds (a : String) (h : a ∈ validActivityLevels) :
    1 ≤ vitamin_b6_activity_multipliers a ∧ vitamin_b6_activity_multipliers a ≤ 1.1 := by
  fin_cases h <;> norm_num [vitamin_b6_activity_multipliers]

theorem vitamin_e_mult_bounds (a : String) (h : a ∈ validActivityLevels) :
    1 ≤ vitamin_e_activity_multipliers a ∧ vitamin_e_activity_multipliers a ≤ 1.1 := by
  fin_cases h <;> norm_num [vitamin_e_activity_multipliers]

theorem vitamin_k_mult_bounds (a : String) (h : a ∈ validActivityLevels) :
    1 ≤ vitamin_k_activity_multipliers a ∧ vitamin_k_activity_multipliers a ≤ 1.05 := by
  fin_cases h <;> norm_num [vitamin_k_activity_multipliers]

theorem thiamin_mult_bounds (a : String) (h : a ∈ validActivityLevels) :
    1 ≤ thiamin_activity_multipliers a ∧ thiamin_activity_multipliers a ≤ 1.15 := by
  fin_cases h <;> norm_num [thiamin_activity_multipliers]

theorem vitamin_b12_mult_bounds (a : String) (h : a ∈ validActivityLevels) :
    1 ≤ vitamin_b12_activity_multipliers a ∧ vitamin_b12_activity_multipliers a ≤ 1.05 := by
  fin_cases h <;> norm_num [vitamin_b12_activity_multipliers]

theorem riboflavin_mult_bounds (a : String) (h : a ∈ validActivityLevels) :
    1 ≤ riboflavin_activity_multipliers a ∧ riboflavin_activity_multipliers a ≤ 1.15 := by
  fin_cases h <;> norm_num [riboflavin_activity_multipliers]

theorem folate_mult_bounds (a : String) (h : a ∈ validActivityLevels) :
    1 ≤ folate_activity_multipliers a ∧ folate_activity_multipliers a ≤ 1.1 := by
  fin_cases h <;> norm_num [folate_activity_multipliers]

theorem niacin_mult_bounds (a : String) (h : a ∈ validActivityLevels) :
    1 ≤ niacin_activity_multipliers a ∧ niacin_activity_multipliers a ≤ 1.15 := by
  fin_cases h <;> norm_num [niacin_activity_multipliers]

theorem choline_mult_bounds (a : String) (h : a ∈ validActivityLevels) :
    1 ≤ choline_activity_multipliers a ∧ choline_activity_multipliers a ≤ 1.1 := by
  fin_cases h <;> norm_num [choline_activity_multipliers]

theorem pantothenic_acid_mult_bounds (a : String) (h : a ∈ validActivityLevels) :
    1 ≤ pantothenic_acid_activity_multipliers a ∧
      pantothenic_acid_activity_multipliers a ≤ 1.1 := by
  fin_cases h <;> norm_num [pantothenic_acid_activity_multipliers]

theorem biotin_mult_bounds (a : String) (h : a ∈ validActivityLevels) :
    1 ≤ biotin_activity_multipliers a ∧ biotin_activity_multipliers a ≤ 1.05 := by
  fin_cases h <;> norm_num [biotin_activity_multipliers]

theorem calcium_mult_bounds (a : String) (h : a ∈ validActivityLevels) :
    1 ≤ calcium_activity_multipliers a ∧ calcium_activity_multipliers a ≤ 1.1 := by
  fin_cases h <;> norm_num [calcium_activity_multipliers]

theorem chloride_mult_bounds (a : String) (h : a ∈ validActivityLevels) :
    1 ≤ chloride_activity_multipliers a ∧ chloride_activity_multipliers a ≤ 1.15 := by
  fin_cases h <;> norm_num [chloride_activity_multipliers]

theorem chromium_mult_bounds (a : String) (h : a ∈ validActivityLevels) :
    1 ≤ chromium_activity_multipliers a ∧ chromium_activity_multipliers a ≤ 1.1 := by
  fin_cases h <;> norm_num [chromium_activity_multipliers]

theorem copper_mult_bounds (a : String) (h : a ∈ validActivityLevels) :
    1 ≤ copper_activity_multipliers a ∧ copper_activity_multipliers a ≤ 1.1 := by
  fin_cases h <;> norm_num [copper_activity_multipliers]

theorem fluoride_mult_bounds (a : String) (h : a ∈ validActivityLevels) :
    1 ≤ fluoride_activity_multipliers a ∧ fluoride_activity_multipliers a ≤ 1.05 := by
  fin_cases h <;> norm_num [fluoride_activity_multipliers]

theorem iodine_mult_bounds (a : String) (h : a ∈ validActivityLevels) :
    1 ≤ iodine_activity_multipliers a ∧ iodine_activity_multipliers a ≤ 1.05 := by
  fin_cases h <;> norm_num [iodine_activity_multipliers]

theorem iron_mult_bounds (a : String) (h : a ∈ validActivityLevels) :
    1 ≤ iron_activity_multipliers a ∧ iron_activity_multipliers a ≤ 1.1 := by
  fin_cases h <;> norm_num [iron_activity_multipliers]

theorem magnesium_mult_bounds (a : String) (h : a ∈ validActivityLevels) :
    1 ≤ magnesium_activity_multipliers a ∧ magnesium_activity_multipliers a ≤ 1.1 := by
  fin_cases h <;> norm_num [magnesium_activity_multipliers]

theorem manganese_mult_bounds (a : String) (h : a ∈ validActivityLevels) :
    1 ≤ manganese_activity_multipliers a ∧ manganese_activity_multipliers a ≤ 1.05 := by
  fin_cases h <;> norm_num [manganese_activity_multipliers]

theorem molybdenum_mult_bounds (a : String) (h : a ∈ validActivityLevels) :
    1 ≤ molybdenum_activity_multipliers a ∧ molybdenum_activity_multipliers a ≤ 1.05 := by
  fin_cases h <;> norm_num [molybdenum_activity_multipliers]

theorem phosphorus_mult_bounds (a : String) (h : a ∈ validActivityLevels) :
    1 ≤ phosphorus_activity_multipliers a ∧ phosphorus_activity_multipliers a ≤ 1.1 := by
  fin_cases h <;> norm_num [phosphorus_activity_multipliers]

theorem potassium_mult_bounds (a : String) (h : a ∈ validActivityLevels) :
    1 ≤ potassium_activity_multipliers a ∧ potassium_activity_multipliers a ≤ 1.15 := by
  fin_cases h <;> norm_num [potassium_activity_multipliers]

theorem selenium_mult_bounds (a : String) (h : a ∈ validActivityLevels) :
    1 ≤ selenium_activity_multipliers a ∧ selenium_activity_multipliers a ≤ 1.05 := by
  fin_cases h <;> norm_num [selenium_activity_multipliers]

theorem sodium_mult_bounds (a : String) (h : a ∈ validActivityLevels) :
    1 ≤ sodium_activity_multipliers a ∧ sodium_activity_multipliers a ≤ 1.2 := by
  fin_cases h <;> norm_num [sodium_activity_multipliers]

theorem zinc_mult_bounds (a : String) (h : a ∈ validActivityLevels) :
    1 ≤ zinc_activity_multipliers a ∧ zinc_activity_multipliers a ≤ 1.1 := by
  fin_cases h <;> norm_num [zinc_activity_multipliers]

theorem carbohydrates_outline_inv (age : ℚ) (gender activity_level : String) (eer : ℚ)
    (h1 : 14 ≤ age) (h2 : gender ∈ validGenders) (h3 : activity_level ∈ validActivityLevels)
    (h4 : 0 < eer) :
    OutlineInv (generate_carbohydrates_outline age gender activity_level eer) := by
  rw [generate_carbohydrates_outline, if_neg (not_invalidArguments h1 h2 h3 h4)]
  unfold carbohydrates_body OutlineInv
  simp only
  constructor
  · exact_mod_cast pyRound_mono (show (0.45:ℚ) * eer / 4 ≤ 0.55 * eer / 4 by linarith)
  · exact_mod_cast pyRound_mono (show (0.55:ℚ) * eer / 4 ≤ 0.65 * eer / 4 by linarith)

theorem fat_outline_inv (age : ℚ) (gender activity_level : String) (eer : ℚ)
    (h1 : 14 ≤ age) (h2 : gender ∈ validGenders) (h3 : activity_level ∈ validActivityLevels)
    (h4 : 0 < eer) :
    OutlineInv (generate_fat_outline age gender activity_level eer) := by
  rw [generate_fat_outline, if_neg (not_invalidArguments h1 h2 h3 h4)]
  unfold fat_body OutlineInv
  simp only
  constructor
  · exact_mod_cast pyRound_mono (show (0.2:ℚ) * eer / 9 ≤ 0.275 * eer / 9 by linarith)
  · exact_mod_cast pyRound_mono (show (0.275:ℚ) * eer / 9 ≤ 0.35 * eer / 9 by linarith)

theorem fiber_cell (B m e : ℚ) {L : ℚ} (hB : 0 ≤ B) (hm : 0.95 ≤ m)
    (hL : L ≤ (pyRound (B * 0.95) : ℚ)) (hL0 : 0 ≤ L) :
    L ≤ (pyRound (max (B * m) e) : ℚ) ∧
      (pyRound (max (B * m) e) : ℚ) ≤
        (pyRound (1.5 * (pyRound (max (B * m) e) : ℚ)) : ℚ) := by
  have k1 : B * 0.95 ≤ max (B * m) e :=
    le_trans (mul_le_mul_of_nonneg_left hm hB) (le_max_left _ _)
  have hLe : L ≤ (pyRound (max (B * m) e) : ℚ) :=
    hL.trans (by exact_mod_cast pyRound_mono k1)
  exact ⟨hLe, intCast_le_pyRound_mul _ 1.5 (by norm_num) (hL0.trans hLe)⟩

theorem fiber_outline_inv (age : ℚ) (gender activity_level : String) (eer : ℚ)
    (h1 : 14 ≤ age) (h2 : gender ∈ validGenders) (h3 : activity_level ∈ validActivityLevels)
    (h4 : 0 < eer) :
    OutlineInv (generate_fiber_outline age gender activity_level eer) := by
  rw [generate_fiber_outline, if_neg (not_invalidArguments h1 h2 h3 h4)]
  have hm := fiber_mult_bounds activity_level h3
  unfold fiber_body OutlineInv
  split_ifs <;> simp only <;>
    exact fiber_cell _ _ _ (by norm_num) hm.1 (by unfold pyRound; norm_num) (by norm_num)

theorem protein_cell (B m c W : ℚ) {L : ℚ} (hB : 0 ≤ B) (hm : 1 ≤ m) (hc : 0.9 ≤ c)
    (hL : L ≤ (pyRound (B * 1 * 0.9) : ℚ)) (hL0 : 0 ≤ L) :
    L ≤ (pyRound (B * m * c) : ℚ) ∧
      (pyRound (B * m * c) : ℚ) ≤ max W (2 * (pyRound (B * m * c) : ℚ)) := by
  have k1 : B * 1 * 0.9 ≤ B * m * c :=
    mul_le_mul (mul_le_mul_of_nonneg_left hm hB) hc (by norm_num)
      (mul_nonneg hB (by linarith))
  have hLe : L ≤ (pyRound (B * m * c) : ℚ) :=
    hL.trans (by exact_mod_cast pyRound_mono k1)
  refine ⟨hLe, le_trans (by linarith [hL0.trans hLe]) (le_max_right W _)⟩

theorem protein_outline_inv (age : ℚ) (gender activity_level : String) (eer : ℚ)
    (h1 : 14 ≤ age) (h2 : gender ∈ validGenders) (h3 : activity_level ∈ validActivityLevels)
    (h4 : 0 < eer) :
    OutlineInv (generate_protein_outline age gender activity_level eer) := by
  rw [generate_protein_outline, if_neg (not_invalidArguments h1 h2 h3 h4)]
  have hm := protein_mult_bounds activity_level h3
  unfold protein_body OutlineInv
  split_ifs <;> simp only <;>
    exact protein_cell _ _ _ _ (by norm_num) hm.1 (clamp_bounds _ (by norm_num)).1
      (by unfold pyRound; norm_num) (by norm_num)

theorem vitamin_a_outline_inv (age : ℚ) (gender activity_level : String) (eer : ℚ)
    (h1 : 14 ≤ age) (h2 : gender ∈ validGenders) (h3 : activity_level ∈ validActivityLevels)
    (h4 : 0 < eer) :
    OutlineInv (generate_vitamin_a_outline age gender activity_level eer) := by
  rw [generate_vitamin_a_outline, if_neg (not_invalidArguments h1 h2 h3 h4)]
  have hm := vitamin_a_mult_bounds activity_level h3
  unfold vitamin_a_body OutlineInv
  split_ifs <;> simp only <;> rw [pyRound_intCast] <;>
    exact pyRound_mul_bounds _ _ _ 1 1.1 0.85 1.15 (by norm_num) (by norm_num) (by norm_num)
      hm (clamp_bounds _ (by norm_num)) (by unfold pyRound; norm_num)
      (by unfold pyRound; norm_num)

theorem vitamin_c_outline_inv (age : ℚ) (gender activity_level : String) (eer : ℚ)
    (h1 : 14 ≤ age) (h2 : gender ∈ validGenders) (h3 : activity_level ∈ validActivityLevels)
    (h4 : 0 < eer) :
    OutlineInv (generate_vitamin_c_outline age gender activity_level eer) := by
  rw [generate_vitamin_c_outline, if_neg (not_invalidArguments h1 h2 h3 h4)]
  have hm := vitamin_c_mult_bounds activity_level h3
  unfold vitamin_c_body OutlineInv
  split_ifs <;> simp only <;>
    exact pyRound_mul_bounds _ _ _ 1 1.15 0.9 1.1 (by norm_num) (by norm_num) (by norm_num)
      hm (clamp_bounds _ (by norm_num)) (by unfold pyRound; norm_num)
      (by unfold pyRound; norm_num)

theorem vitamin_d_outline_inv (age : ℚ) (gender activity_level : String) (eer : ℚ)
    (h1 : 14 ≤ age) (h2 : gender ∈ validGenders) (h3 : activity_level ∈ validActivityLevels)
    (h4 : 0 < eer) :
    OutlineInv (generate_vitamin_d_outline age gender activity_level eer) := by
  rw [generate_vitamin_d_outline, if_neg (not_invalidArguments h1 h2 h3 h4)]
  have hm := vitamin_d_mult_bounds activity_level h3
  unfold vitamin_d_body OutlineInv
  split_ifs <;> simp only <;>
    exact pyRound_mul_bounds _ _ _ 1 1.15 0.95 1.1 (by norm_num) (by norm_num) (by norm_num)
      hm (clamp_bounds _ (by norm_num)) (by unfold pyRound; norm_num)
      (by unfold pyRound; norm_num)

theorem folate_outline_inv (age : ℚ) (gender activity_level : String) (eer : ℚ)
    (h1 : 14 ≤ age) (h2 : gender ∈ validGenders) (h3 : activity_level ∈ validActivityLevels)
    (h4 : 0 < eer) :
    OutlineInv (generate_folate_outline age gender activity_level eer) := by
  rw [generate_folate_outline, if_neg (not_invalidArguments h1 h2 h3 h4)]
  have hm := folate_mult_bounds activity_level h3
  unfold folate_body OutlineInv
  split_ifs <;> simp only <;>
    exact pyRound_mul_bounds _ _ _ 1 1.1 0.95 1.05 (by norm_num) (by norm_num) (by norm_num)
      hm (clamp_bounds _ (by norm_num)) (by unfold pyRound; norm_num)
      (by unfold pyRound; norm_num)

theorem choline_outline_inv (age : ℚ) (gender activity_level : String) (eer : ℚ)
    (h1 : 14 ≤ age) (h2 : gender ∈ validGenders) (h3 : activity_level ∈ validActivityLevels)
    (h4 : 0 < eer) :
    OutlineInv (generate_choline_outline age gender activity_level eer) := by
  rw [generate_choline_outline, if_neg (not_invalidArguments h1 h2 h3 h4)]
  have hm := choline_mult_bounds activity_level h3
  unfold choline_body OutlineInv
  split_ifs <;> simp only <;>
    exact pyRound_mul_bounds _ _ _ 1 1.1 0.95 1.05 (by norm_num) (by norm_num) (by norm_num)
      hm (clamp_bounds _ (by norm_num)) (by unfold pyRound; norm_num)
      (by unfold pyRound; norm_num)

theorem calcium_outline_inv (age : ℚ) (gender activity_level : String) (eer : ℚ)
    (h1 : 14 ≤ age) (h2 : gender ∈ validGenders) (h3 : activity_level ∈ validActivityLevels)
    (h4 : 0 < eer) :
    OutlineInv (generate_calcium_outline age gender activity_level eer) := by
  rw [generate_calcium_outline, if_neg (not_invalidArguments h1 h2 h3 h4)]
  have hm := calcium_mult_bounds activity_level h3
  unfold calcium_body OutlineInv
  split_ifs <;> simp only <;>
    exact pyRound_mul_bounds _ _ _ 1 1.1 0.95 1.05 (by norm_num) (by norm_num) (by norm_num)
      hm (clamp_bounds _ (by norm_num)) (by unfold pyRound; norm_num)
      (by unfold pyRound; norm_num)

theorem chloride_outline_inv (age : ℚ) (gender activity_level : String) (eer : ℚ)
    (h1 : 14 ≤ age) (h2 : gender ∈ validGenders) (h3 : activity_level ∈ validActivityLevels)
    (h4 : 0 < eer) :
    OutlineInv (generate_chloride_outline age gender activity_level eer) := by
  rw [generate_chloride_outline, if_neg (not_invalidArguments h1 h2 h3 h4)]
  have hm := chloride_mult_bounds activity_level h3
  unfold chloride_body OutlineInv
  split_ifs <;> simp only <;>
    exact pyRound_mul_bounds _ _ _ 1 1.15 0.9 1.1 (by norm_num) (by norm_num) (by norm_num)
      hm (clamp_bounds _ (by norm_num)) (by unfold pyRound; norm_num)
      (by unfold pyRound; norm_num)

theorem copper_outline_inv (age : ℚ) (gender activity_level : String) (eer : ℚ)
    (h1 : 14 ≤ age) (h2 : gender ∈ validGenders) (h3 : activity_level ∈ validActivityLevels)
    (h4 : 0 < eer) :
    OutlineInv (generate_copper_outline age gender activity_level eer) := by
  rw [generate_copper_outline, if_neg (not_invalidArguments h1 h2 h3 h4)]
  have hm := copper_mult_bounds activity_level h3
  unfold copper_body OutlineInv
  split_ifs <;> simp only <;>
    exact pyRound_mul_bounds _ _ _ 1 1.1 0.95 1.05 (by norm_num) (by norm_num) (by norm_num)
      hm (clamp_bounds _ (by norm_num)) (by unfold pyRound; norm_num)
      (by unfold pyRound; norm_num)

theorem iodine_outline_inv (age : ℚ) (gender activity_level : String) (eer : ℚ)
    (h1 : 14 ≤ age) (h2 : gender ∈ validGenders) (h3 : activity_level ∈ validActivityLevels)
    (h4 : 0 < eer) :
    OutlineInv (generate_iodine_outline age gender activity_level eer) := by
  rw [generate_iodine_outline, if_neg (not_invalidArguments h1 h2 h3 h4)]
  have hm := iodine_mult_bounds activity_level h3
  unfold iodine_body OutlineInv
  split_ifs <;> simp only <;>
    exact pyRound_mul_bounds _ _ _ 1 1.05 0.97 1.03 (by norm_num) (by norm_num) (by norm_num)
      hm (clamp_bounds _ (by norm_num)) (by unfold pyRound; norm_num)
      (by unfold pyRound; norm_num)

theorem magnesium_outline_inv (age : ℚ) (gender activity_level : String) (eer : ℚ)
    (h1 : 14 ≤ age) (h2 : gender ∈ validGenders) (h3 : activity_level ∈ validActivityLevels)
    (h4 : 0 < eer) :
    OutlineInv (generate_magnesium_outline age gender activity_level eer) := by
  rw [generate_magnesium_outline, if_neg (not_invalidArguments h1 h2 h3 h4)]
  have hm := magnesium_mult_bounds activity_level h3
  unfold magnesium_body OutlineInv
  split_ifs <;> simp only <;>
    exact pyRound_mul_bounds _ _ _ 1 1.1 0.95 1.05 (by norm_num) (by norm_num) (by norm_num)
      hm (clamp_bounds _ (by norm_num)) (by unfold pyRound; norm_num)
      (by unfold pyRound; norm_num)

theorem molybdenum_outline_inv (age : ℚ) (gender activity_level : String) (eer : ℚ)
    (h1 : 14 ≤ age) (h2 : gender ∈ validGenders) (h3 : activity_level ∈ validActivityLevels)
    (h4 : 0 < eer) :
    OutlineInv (generate_molybdenum_outline age gender activity_level eer) := by
  rw [generate_molybdenum_outline, if_neg (not_invalidArguments h1 h2 h3 h4)]
  have hm := molybdenum_mult_bounds activity_level h3
  unfold molybdenum_body OutlineInv
  split_ifs <;> simp only <;>
    exact pyRound_mul_bounds _ _ _ 1 1.05 0.97 1.03 (by norm_num) (by norm_num) (by norm_num)
      hm (clamp_bounds _ (by norm_num)) (by unfold pyRound; norm_num)
      (by unfold pyRound; norm_num)

theorem phosphorus_outline_inv (age : ℚ) (gender activity_level : String) (eer : ℚ)
    (h1 : 14 ≤ age) (h2 : gender ∈ validGenders) (h3 : activity_level ∈ validActivityLevels)
    (h4 : 0 < eer) :
    OutlineInv (generate_phosphorus_outline age gender activity_level eer) := by
  rw [generate_phosphorus_outline, if_neg (not_invalidArguments h1 h2 h3 h4)]
  have hm := phosphorus_mult_bounds activity_level h3
  unfold phosphorus_body OutlineInv
  split_ifs <;> simp only <;>
    exact pyRound_mul_bounds _ _ _ 1 1.1 0.95 1.05 (by norm_num) (by norm_num) (by norm_num)
      hm (clamp_bounds _ (by norm_num)) (by unfold pyRound; norm_num)
      (by unfold pyRound; norm_num)

theorem selenium_outline_inv (age : ℚ) (gender activity_level : String) (eer : ℚ)
    (h1 : 14 ≤ age) (h2 : gender ∈ validGenders) (h3 : activity_level ∈ validActivityLevels)
    (h4 : 0 < eer) :
    OutlineInv (generate_selenium_outline age gender activity_level eer) := by
  rw [generate_selenium_outline, if_neg (not_invalidArguments h1 h2 h3 h4)]
  have hm := selenium_mult_bounds activity_level h3
  unfold selenium_body OutlineInv
  split_ifs <;> simp only <;>
    exact pyRound_mul_bounds _ _ _ 1 1.05 0.97 1.03 (by norm_num) (by norm_num) (by norm_num)
      hm (clamp_bounds _ (by norm_num)) (by unfold pyRound; norm_num)
      (by unfold pyRound; norm_num)

theorem sodium_outline_inv (age : ℚ) (gender activity_level : String) (eer : ℚ)
    (h1 : 14 ≤ age) (h2 : gender ∈ validGenders) (h3 : activity_level ∈ validActivityLevels)
    (h4 : 0 < eer) :
    OutlineInv (generate_sodium_outline age gender activity_level eer) := by
  rw [generate_sodium_outline, if_neg (not_invalidArguments h1 h2 h3 h4)]
  have hm := sodium_mult_bounds activity_level h3
  unfold sodium_body OutlineInv
  split_ifs <;> simp only <;>
    exact pyRound_mul_bounds _ _ _ 1 1.2 0.85 1.15 (by norm_num) (by norm_num) (by norm_num)
      hm (clamp_bounds _ (by norm_num)) (by unfold pyRound; norm_num)
      (by unfold pyRound; norm_num)

theorem vitamin_b6_outline_inv (age : ℚ) (gender activity_level : String) (eer : ℚ)
    (h1 : 14 ≤ age) (h2 : gender ∈ validGenders) (h3 : activity_level ∈ validActivityLevels)
    (h4 : 0 < eer) :
    OutlineInv (generate_vitamin_b6_outline age gender activity_level eer) := by
  rw [generate_vitamin_b6_outline, if_neg (not_invalidArguments h1 h2 h3 h4)]
  have hm := vitamin_b6_mult_bounds activity_level h3
  unfold vitamin_b6_body OutlineInv
  split_ifs <;> simp only <;>
    exact pyRound1_mul_bounds _ _ _ 1 1.1 0.95 1.05 (by norm_num) (by norm_num) (by norm_num)
      hm (clamp_bounds _ (by norm_num)) (by unfold pyRound1 pyRound; norm_num)
      (by unfold pyRound1 pyRound; norm_num)

theorem vitamin_e_outline_inv (age : ℚ) (gender activity_level : String) (eer : ℚ)
    (h1 : 14 ≤ age) (h2 : gender ∈ validGenders) (h3 : activity_level ∈ validActivityLevels)
    (h4 : 0 < eer) :
    OutlineInv (generate_vitamin_e_outline age gender activity_level eer) := by
  rw [generate_vitamin_e_outline, if_neg (not_invalidArguments h1 h2 h3 h4)]
  have hm := vitamin_e_mult_bounds activity_level h3
  unfold vitamin_e_body OutlineInv
  split_ifs <;> simp only <;>
    exact pyRound1_mul_bounds _ _ _ 1 1.1 0.95 1.05 (by norm_num) (by norm_num) (by norm_num)
      hm (clamp_bounds _ (by norm_num)) (by unfold pyRound1 pyRound; norm_num)
      (by unfold pyRound1 pyRound; norm_num)

theorem niacin_outline_inv (age : ℚ) (gender activity_level : String) (eer : ℚ)
    (h1 : 14 ≤ age) (h2 : gender ∈ validGenders) (h3 : activity_level ∈ validActivityLevels)
    (h4 : 0 < eer) :
    OutlineInv (generate_niacin_outline age gender activity_level eer) := by
  rw [generate_niacin_outline, if_neg (not_invalidArguments h1 h2 h3 h4)]
  have hm := niacin_mult_bounds activity_level h3
  unfold niacin_body OutlineInv
  split_ifs <;> simp only <;>
    exact pyRound1_mul_bounds _ _ _ 1 1.15 0.9 1.2 (by norm_num) (by norm_num) (by norm_num)
      hm (clamp_bounds _ (by norm_num)) (by unfold pyRound1 pyRound; norm_num)
      (by unfold pyRound1 pyRound; norm_num)

theorem fluoride_outline_inv (age : ℚ) (gender activity_level : String) (eer : ℚ)
    (h1 : 14 ≤ age) (h2 : gender ∈ validGenders) (h3 : activity_level ∈ validActivityLevels)
    (h4 : 0 < eer) :
    OutlineInv (generate_fluoride_outline age gender activity_level eer) := by
  rw [generate_fluoride_outline, if_neg (not_invalidArguments h1 h2 h3 h4)]
  have hm := fluoride_mult_bounds activity_level h3
  unfold fluoride_body OutlineInv
  split_ifs <;> simp only <;>
    exact pyRound1_mul_bounds _ _ _ 1 1.05 0.97 1.03 (by norm_num) (by norm_num) (by norm_num)
      hm (clamp_bounds _ (by norm_num)) (by unfold pyRound1 pyRound; norm_num)
      (by unfold pyRound1 pyRound; norm_num)

theorem iron_outline_inv (age : ℚ) (gender activity_level : String) (eer : ℚ)
    (h1 : 14 ≤ age) (h2 : gender ∈ validGenders) (h3 : activity_level ∈ validActivityLevels)
    (h4 : 0 < eer) :
    OutlineInv (generate_iron_outline age gender activity_level eer) := by
  rw [generate_iron_outline, if_neg (not_invalidArguments h1 h2 h3 h4)]
  have hm := iron_mult_bounds activity_level h3
  unfold iron_body OutlineInv
  split_ifs <;> simp only <;>
    exact pyRound1_mul_bounds _ _ _ 1 1.1 0.95 1.05 (by norm_num) (by norm_num) (by norm_num)
      hm (clamp_bounds _ (by norm_num)) (by unfold pyRound1 pyRound; norm_num)
      (by unfold pyRound1 pyRound; norm_num)

theorem manganese_outline_inv (age : ℚ) (gender activity_level : String) (eer : ℚ)
    (h1 : 14 ≤ age) (h2 : gender ∈ validGenders) (h3 : activity_level ∈ validActivityLevels)
    (h4 : 0 < eer) :
    OutlineInv (generate_manganese_outline age gender activity_level eer) := by
  rw [generate_manganese_outline, if_neg (not_invalidArguments h1 h2 h3 h4)]
  have hm := manganese_mult_bounds activity_level h3
  unfold manganese_body OutlineInv
  split_ifs <;> simp only <;>
    exact pyRound1_mul_bounds _ _ _ 1 1.05 0.97 1.03 (by norm_num) (by norm_num) (by norm_num)
      hm (clamp_bounds _ (by norm_num)) (by unfold pyRound1 pyRound; norm_num)
      (by unfold pyRound1 pyRound; norm_num)

theorem zinc_outline_inv (age : ℚ) (gender activity_level : String) (eer : ℚ)
    (h1 : 14 ≤ age) (h2 : gender ∈ validGenders) (h3 : activity_level ∈ validActivityLevels)
    (h4 : 0 < eer) :
    OutlineInv (generate_zinc_outline age gender activity_level eer) := by
  rw [generate_zinc_outline, if_neg (not_invalidArguments h1 h2 h3 h4)]
  have hm := zinc_mult_bounds activity_level h3
  unfold zinc_body OutlineInv
  split_ifs <;> simp only <;>
    exact pyRound1_mul_bounds _ _ _ 1 1.1 0.95 1.05 (by norm_num) (by norm_num) (by norm_num)
      hm (clamp_bounds _ (by norm_num)) (by unfold pyRound1 pyRound; norm_num)
      (by unfold pyRound1 pyRound; norm_num)

theorem vitamin_k_outline_inv (age : ℚ) (gender activity_level : String) (eer : ℚ)
    (h1 : 14 ≤ age) (h2 : gender ∈ validGenders) (h3 : activity_level ∈ validActivityLevels)
    (h4 : 0 < eer) :
    OutlineInv (generate_vitamin_k_outline age gender activity_level eer) := by
  rw [generate_vitamin_k_outline, if_neg (not_invalidArguments h1 h2 h3 h4)]
  have hm := vitamin_k_mult_bounds activity_level h3
  unfold vitamin_k_body OutlineInv
  split_ifs <;> simp only <;>
    exact pyRound_mul_bounds_mulUL _ _ _ 1 1.05 0.97 1.03 3 (by norm_num) (by norm_num)
      (by norm_num) (by norm_num) (by norm_num) hm (clamp_bounds _ (by norm_num))
      (by unfold pyRound; norm_num)

theorem biotin_outline_inv (age : ℚ) (gender activity_level : String) (eer : ℚ)
    (h1 : 14 ≤ age) (h2 : gender ∈ validGenders) (h3 : activity_level ∈ validActivityLevels)
    (h4 : 0 < eer) :
    OutlineInv (generate_biotin_outline age gender activity_level eer) := by
  rw [generate_biotin_outline, if_neg (not_invalidArguments h1 h2 h3 h4)]
  have hm := biotin_mult_bounds activity_level h3
  unfold biotin_body OutlineInv
  split_ifs <;> simp only <;>
    exact pyRound_mul_bounds_mulUL _ _ _ 1 1.05 0.97 1.03 10 (by norm_num) (by norm_num)
      (by norm_num) (by norm_num) (by norm_num) hm (clamp_bounds _ (by norm_num))
      (by unfold pyRound; norm_num)

theorem chromium_outline_inv (age : ℚ) (gender activity_level : String) (eer : ℚ)
    (h1 : 14 ≤ age) (h2 : gender ∈ validGenders) (h3 : activity_level ∈ validActivityLevels)
    (h4 : 0 < eer) :
    OutlineInv (generate_chromium_outline age gender activity_level eer) := by
  rw [generate_chromium_outline, if_neg (not_invalidArguments h1 h2 h3 h4)]
  have hm := chromium_mult_bounds activity_level h3
  unfold chromium_body OutlineInv
  split_ifs <;> simp only <;>
    exact pyRound_mul_bounds_mulUL _ _ _ 1 1.1 0.95 1.05 10 (by norm_num) (by norm_num)
      (by norm_num) (by norm_num) (by norm_num) hm (clamp_bounds _ (by norm_num))
      (by unfold pyRound; norm_num)

theorem potassium_outline_inv (age : ℚ) (gender activity_level : String) (eer : ℚ)
    (h1 : 14 ≤ age) (h2 : gender ∈ validGenders) (h3 : activity_level ∈ validActivityLevels)
    (h4 : 0 < eer) :
    OutlineInv (generate_potassium_outline age gender activity_level eer) := by
  rw [generate_potassium_outline, if_neg (not_invalidArguments h1 h2 h3 h4)]
  have hm := potassium_mult_bounds activity_level h3
  unfold potassium_body OutlineInv
  split_ifs <;> simp only <;>
    exact pyRound_mul_bounds_mulUL _ _ _ 1 1.15 0.9 1.1 2 (by norm_num) (by norm_num)
      (by norm_num) (by norm_num) (by norm_num) hm (clamp_bounds _ (by norm_num))
      (by unfold pyRound; norm_num)

theorem thiamin_outline_inv (age : ℚ) (gender activity_level : String) (eer : ℚ)
    (h1 : 14 ≤ age) (h2 : gender ∈ validGenders) (h3 : activity_level ∈ validActivityLevels)
    (h4 : 0 < eer) :
    OutlineInv (generate_thiamin_outline age gender activity_level eer) := by
  rw [generate_thiamin_outline, if_neg (not_invalidArguments h1 h2 h3 h4)]
  have hm := thiamin_mult_bounds activity_level h3
  unfold thiamin_body OutlineInv
  split_ifs <;> simp only <;>
    exact pyRound1_mul_bounds_round1UL _ _ _ 1 1.15 0.9 1.2 5 (by norm_num) (by norm_num)
      (by norm_num) (by norm_num) (by norm_num) hm (clamp_bounds _ (by norm_num))
      (by unfold pyRound1 pyRound; norm_num)

theorem vitamin_b12_outline_inv (age : ℚ) (gender activity_level : String) (eer : ℚ)
    (h1 : 14 ≤ age) (h2 : gender ∈ validGenders) (h3 : activity_level ∈ validActivityLevels)
    (h4 : 0 < eer) :
    OutlineInv (generate_vitamin_b12_outline age gender activity_level eer) := by
  rw [generate_vitamin_b12_outline, if_neg (not_invalidArguments h1 h2 h3 h4)]
  have hm := vitamin_b12_mult_bounds activity_level h3
  unfold vitamin_b12_body OutlineInv
  split_ifs <;> simp only <;>
    exact pyRound1_mul_bounds_round1UL _ _ _ 1 1.05 0.97 1.03 10 (by norm_num) (by norm_num)
      (by norm_num) (by norm_num) (by norm_num) hm (clamp_bounds _ (by norm_num))
      (by unfold pyRound1 pyRound; norm_num)

theorem riboflavin_outline_inv (age : ℚ) (gender activity_level : String) (eer : ℚ)
    (h1 : 14 ≤ age) (h2 : gender ∈ validGenders) (h3 : activity_level ∈ validActivityLevels)
    (h4 : 0 < eer) :
    OutlineInv (generate_riboflavin_outline age gender activity_level eer) := by
  rw [generate_riboflavin_outline, if_neg (not_invalidArguments h1 h2 h3 h4)]
  have hm := riboflavin_mult_bounds activity_level h3
  unfold riboflavin_body OutlineInv
  split_ifs <;> simp only <;>
    exact pyRound1_mul_bounds_round1UL _ _ _ 1 1.15 0.9 1.2 5 (by norm_num) (by norm_num)
      (by norm_num) (by norm_num) (by norm_num) hm (clamp_bounds _ (by norm_num))
      (by unfold pyRound1 pyRound; norm_num)

theorem pantothenic_acid_outline_inv (age : ℚ) (gender activity_level : String) (eer : ℚ)
    (h1 : 14 ≤ age) (h2 : gender ∈ validGenders) (h3 : activity_level ∈ validActivityLevels)
    (h4 : 0 < eer) :
    OutlineInv (generate_pantothenic_acid_outline age gender activity_level eer) := by
  rw [generate_pantothenic_acid_outline, if_neg (not_invalidArguments h1 h2 h3 h4)]
  have hm := pantothenic_acid_mult_bounds activity_level h3
  unfold pantothenic_acid_body OutlineInv
  split_ifs <;> simp only <;>
    exact pyRound1_mul_bounds_round1UL _ _ _ 1 1.1 0.95 1.05 5 (by norm_num) (by norm_num)
      (by norm_num) (by norm_num) (by norm_num) hm (clamp_bounds _ (by norm_num))
      (by unfold pyRound1 pyRound; norm_num)

theorem calc_EER_isSome_iff (age height weight : ℚ) (gender activity_level : String) :
    (calc_EER age height weight gender activity_level).isSome ↔
      (14 ≤ age ∧ gender ∈ validGenders ∧ activity_level ∈ validActivityLevels) := by
  unfold calc_EER
  by_cases hv : invalidProfile age gender activity_level
  · rw [if_pos hv]
    simp only [Option.isSome_none, Bool.false_eq_true, false_iff]
    rw [← not_invalidProfile_iff]
    exact not_not_intro hv
  · rw [if_neg hv]
    obtain ⟨ha, hg, hact⟩ := (not_invalidProfile_iff age gender activity_level).mp hv
    refine iff_of_true ?_ ⟨ha, hg, hact⟩
    rw [mem_validGenders_iff] at hg
    rw [mem_validActivityLevels_iff] at hact
    rcases hg with rfl | rfl <;> rcases hact with rfl | rfl | rfl | rfl <;>
      by_cases hband : 14 ≤ age ∧ age < 19 <;>
      simp [hband]

theorem generate_carbohydrates_isSome_iff (age : ℚ) (gender activity_level : String) (eer : ℚ) :
    (generate_carbohydrates_outline age gender activity_level eer).isSome ↔
      (14 ≤ age ∧ gender ∈ validGenders ∧ activity_level ∈ validActivityLevels ∧ 0 < eer) := by
  unfold generate_carbohydrates_outline
  rw [guard_isSome_iff]
  exact not_invalidArguments_iff age gender activity_level eer

theorem generate_fiber_isSome_iff (age : ℚ) (gender activity_level : String) (eer : ℚ) :
    (generate_fiber_outline age gender activity_level eer).isSome ↔
      (14 ≤ age ∧ gender ∈ validGenders ∧ activity_level ∈ validActivityLevels ∧ 0 < eer) := by
  unfold generate_fiber_outline
  rw [guard_isSome_iff]
  exact not_invalidArguments_iff age gender activity_level eer

theorem generate_protein_isSome_iff (age : ℚ) (gender activity_level : String) (eer : ℚ) :
    (generate_protein_outline age gender activity_level eer).isSome ↔
      (14 ≤ age ∧ gender ∈ validGenders ∧ activity_level ∈ validActivityLevels ∧ 0 < eer) := by
  unfold generate_protein_outline
  rw [guard_isSome_iff]
  exact not_invalidArguments_iff age gender activity_level eer

theorem generate_fat_isSome_iff (age : ℚ) (gender activity_level : String) (eer : ℚ) :
    (generate_fat_outline age gender activity_level eer).isSome ↔
      (14 ≤ age ∧ gender ∈ validGenders ∧ activity_level ∈ validActivityLevels ∧ 0 < eer) := by
  unfold generate_fat_outline
  rw [guard_isSome_iff]
  exact not_invalidArguments_iff age gender activity_level eer

theorem generate_vitamin_a_isSome_iff (age : ℚ) (gender activity_level : String) (eer : ℚ) :
    (generate_vitamin_a_outline age gender activity_level eer).isSome ↔
      (14 ≤ age ∧ gender ∈ validGenders ∧ activity_level ∈ validActivityLevels ∧ 0 < eer) := by
  unfold generate_vitamin_a_outline
  rw [guard_isSome_iff]
  exact not_invalidArguments_iff age gender activity_level eer

theorem generate_vitamin_c_isSome_iff (age : ℚ) (gender activity_level : String) (eer : ℚ) :
    (generate_vitamin_c_outline age gender activity_level eer).isSome ↔
      (14 ≤ age ∧ gender ∈ validGenders ∧ activity_level ∈ validActivityLevels ∧ 0 < eer) := by
  unfold generate_vitamin_c_outline
  rw [guard_isSome_iff]
  exact not_invalidArguments_iff age gender activity_level eer

theorem generate_vitamin_d_isSome_iff (age : ℚ) (gender activity_level : String) (eer : ℚ) :
    (generate_vitamin_d_outline age gender activity_level eer).isSome ↔
      (14 ≤ age ∧ gender ∈ validGenders ∧ activity_level ∈ validActivityLevels ∧ 0 < eer) := by
  unfold generate_vitamin_d_outline
  rw [guard_isSome_iff]
  exact not_invalidArguments_iff age gender activity_level eer

theorem generate_vitamin_b6_isSome_iff (age : ℚ) (gender activity_level : String) (eer : ℚ) :
    (generate_vitamin_b6_outline age gender activity_level eer).isSome ↔
      (14 ≤ age ∧ gender ∈ validGenders ∧ activity_level ∈ validActivityLevels ∧ 0 < eer) := by
  unfold generate_vitamin_b6_outline
  rw [guard_isSome_iff]
  exact not_invalidArguments_iff age gender activity_level eer

theorem generate_vitamin_e_isSome_iff (age : ℚ) (gender activity_level : String) (eer : ℚ) :
    (generate_vitamin_e_outline age gender activity_level eer).isSome ↔
      (14 ≤ age ∧ gender ∈ validGenders ∧ activity_level ∈ validActivityLevels ∧ 0 < eer) := by
  unfold generate_vitamin_e_outline
  rw [guard_isSome_iff]
  exact not_invalidArguments_iff age gender activity_level eer

theorem generate_vitamin_k_isSome_iff (age : ℚ) (gender activity_level : String) (eer : ℚ) :
    (generate_vitamin_k_outline age gender activity_level eer).isSome ↔
      (14 ≤ age ∧ gender ∈ validGenders ∧ activity_level ∈ validActivityLevels ∧ 0 < eer) := by
  unfold generate_vitamin_k_outline
  rw [guard_isSome_iff]
  exact not_invalidArguments_iff age gender activity_level eer

theorem generate_thiamin_isSome_iff (age : ℚ) (gender activity_level : String) (eer : ℚ) :
    (generate_thiamin_outline age gender activity_level eer).isSome ↔
      (14 ≤ age ∧ gender ∈ validGenders ∧ activity_level ∈ validActivityLevels ∧ 0 < eer) := by
  unfold generate_thiamin_outline
  rw [guard_isSome_iff]
  exact not_invalidArguments_iff age gender activity_level eer

theorem generate_vitamin_b12_isSome_iff (age : ℚ) (gender activity_level : String) (eer : ℚ) :
    (generate_vitamin_b12_outline age gender activity_level eer).isSome ↔
      (14 ≤ age ∧ gender ∈ validGenders ∧ activity_level ∈ validActivityLevels ∧ 0 < eer) := by
  unfold generate_vitamin_b12_outline
  rw [guard_isSome_iff]
  exact not_invalidArguments_iff age gender activity_level eer

theorem generate_riboflavin_isSome_iff (age : ℚ) (gender activity_level : String) (eer : ℚ) :
    (generate_riboflavin_outline age gender activity_level eer).isSome ↔
      (14 ≤ age ∧ gender ∈ validGenders ∧ activity_level ∈ validActivityLevels ∧ 0 < eer) := by
  unfold generate_riboflavin_outline
  rw [guard_isSome_iff]
  exact not_invalidArguments_iff age gender activity_level eer

theorem generate_folate_isSome_iff (age : ℚ) (gender activity_level : String) (eer : ℚ) :
    (generate_folate_outline age gender activity_level eer).isSome ↔
      (14 ≤ age ∧ gender ∈ validGenders ∧ activity_level ∈ validActivityLevels ∧ 0 < eer) := by
  unfold generate_folate_outline
  rw [guard_isSome_iff]
  exact not_invalidArguments_iff age gender activity_level eer

theorem generate_niacin_isSome_iff (age : ℚ) (gender activity_level : String) (eer : ℚ) :
    (generate_niacin_outline age gender activity_level eer).isSome ↔
      (14 ≤ age ∧ gender ∈ validGenders ∧ activity_level ∈ validActivityLevels ∧ 0 < eer) := by
  unfold generate_niacin_outline
  rw [guard_isSome_iff]
  exact not_invalidArguments_iff age gender activity_level eer

theorem generate_choline_isSome_iff (age : ℚ) (gender activity_level : String) (eer : ℚ) :
    (generate_choline_outline age gender activity_level eer).isSome ↔
      (14 ≤ age ∧ gender ∈ validGenders ∧ activity_level ∈ validActivityLevels ∧ 0 < eer) := by
  unfold generate_choline_outline
  rw [guard_isSome_iff]
  exact not_invalidArguments_iff age gender activity_level eer

theorem generate_pantothenic_acid_isSome_iff (age : ℚ) (gender activity_level : String) (eer : ℚ) :
    (generate_pantothenic_acid_outline age gender activity_level eer).isSome ↔
      (14 ≤ age ∧ gender ∈ validGenders ∧ activity_level ∈ validActivityLevels ∧ 0 < eer) := by
  unfold generate_pantothenic_acid_outline
  rw [guard_isSome_iff]
  exact not_invalidArguments_iff age gender activity_level eer

theorem generate_biotin_isSome_iff (age : ℚ) (gender activity_level : String) (eer : ℚ) :
    (generate_biotin_outline age gender activity_level eer).isSome ↔
      (14 ≤ age ∧ gender ∈ validGenders ∧ activity_level ∈ validActivityLevels ∧ 0 < eer) := by
  unfold generate_biotin_outline
  rw [guard_isSome_iff]
  exact not_invalidArguments_iff age gender activity_level eer

theorem generate_calcium_isSome_iff (age : ℚ) (gender activity_level : String) (eer : ℚ) :
    (generate_calcium_outline age gender activity_level eer).isSome ↔
      (14 ≤ age ∧ gender ∈ validGenders ∧ activity_level ∈ validActivityLevels ∧ 0 < eer) := by
  unfold generate_calcium_outline
  rw [guard_isSome_iff]
  exact not_invalidArguments_iff age gender activity_level eer

theorem generate_chloride_isSome_iff (age : ℚ) (gender activity_level : String) (eer : ℚ) :
    (generate_chloride_outline age gender activity_level eer).isSome ↔
      (14 ≤ age ∧ gender ∈ validGenders ∧ activity_level ∈ validActivityLevels ∧ 0 < eer) := by
  unfold generate_chloride_outline
  rw [guard_isSome_iff]
  exact not_invalidArguments_iff age gender activity_level eer

theorem generate_chromium_isSome_iff (age : ℚ) (gender activity_level : String) (eer : ℚ) :
    (generate_chromium_outline age gender activity_level eer).isSome ↔
      (14 ≤ age ∧ gender ∈ validGenders ∧ activity_level ∈ validActivityLevels ∧ 0 < eer) := by
  unfold generate_chromium_outline
  rw [guard_isSome_iff]
  exact not_invalidArguments_iff age gender activity_level eer

theorem generate_copper_isSome_iff (age : ℚ) (gender activity_level : String) (eer : ℚ) :
    (generate_copper_outline age gender activity_level eer).isSome ↔
      (14 ≤ age ∧ gender ∈ validGenders ∧ activity_level ∈ validActivityLevels ∧ 0 < eer) := by
  unfold generate_copper_outline
  rw [guard_isSome_iff]
  exact not_invalidArguments_iff age gender activity_level eer

theorem generate_fluoride_isSome_iff (age : ℚ) (gender activity_level : String) (eer : ℚ) :
    (generate_fluoride_outline age gender activity_level eer).isSome ↔
      (14 ≤ age ∧ gender ∈ validGenders ∧ activity_level ∈ validActivityLevels ∧ 0 < eer) := by
  unfold generate_fluoride_outline
  rw [guard_isSome_iff]
  exact not_invalidArguments_iff age gender activity_level eer

theorem generate_iodine_isSome_iff (age : ℚ) (gender activity_level : String) (eer : ℚ) :
    (generate_iodine_outline age gender activity_level eer).isSome ↔
      (14 ≤ age ∧ gender ∈ validGenders ∧ activity_level ∈ validActivityLevels ∧ 0 < eer) := by
  unfold generate_iodine_outline
  rw [guard_isSome_iff]
  exact not_invalidArguments_iff age gender activity_level eer

theorem generate_iron_isSome_iff (age : ℚ) (gender activity_level : String) (eer : ℚ) :
    (generate_iron_outline age gender activity_level eer).isSome ↔
      (14 ≤ age ∧ gender ∈ validGenders ∧ activity_level ∈ validActivityLevels ∧ 0 < eer) := by
  unfold generate_iron_outline
  rw [guard_isSome_iff]
  exact not_invalidArguments_iff age gender activity_level eer

theorem generate_magnesium_isSome_iff (age : ℚ) (gender activity_level : String) (eer : ℚ) :
    (generate_magnesium_outline age gender activity_level eer).isSome ↔
      (14 ≤ age ∧ gender ∈ validGenders ∧ activity_level ∈ validActivityLevels ∧ 0 < eer) := by
  unfold generate_magnesium_outline
  rw [guard_isSome_iff]
  exact not_invalidArguments_iff age gender activity_level eer

theorem generate_manganese_isSome_iff (age : ℚ) (gender activity_level : String) (eer : ℚ) :
    (generate_manganese_outline age gender activity_level eer).isSome ↔
      (14 ≤ age ∧ gender ∈ validGenders ∧ activity_level ∈ validActivityLevels ∧ 0 < eer) := by
  unfold generate_manganese_outline
  rw [guard_isSome_iff]
  exact not_invalidArguments_iff age gender activity_level eer

theorem generate_molybdenum_isSome_iff (age : ℚ) (gender activity_level : String) (eer : ℚ) :
    (generate_molybdenum_outline age gender activity_level eer).isSome ↔
      (14 ≤ age ∧ gender ∈ validGenders ∧ activity_level ∈ validActivityLevels ∧ 0 < eer) := by
  unfold generate_molybdenum_outline
  rw [guard_isSome_iff]
  exact not_invalidArguments_iff age gender activity_level eer

theorem generate_phosphorus_isSome_iff (age : ℚ) (gender activity_level : String) (eer : ℚ) :
    (generate_phosphorus_outline age gender activity_level eer).isSome ↔
      (14 ≤ age ∧ gender ∈ validGenders ∧ activity_level ∈ validActivityLevels ∧ 0 < eer) := by
  unfold generate_phosphorus_outline
  rw [guard_isSome_iff]
  exact not_invalidArguments_iff age gender activity_level eer

theorem generate_potassium_isSome_iff (age : ℚ) (gender activity_level : String) (eer : ℚ) :
    (generate_potassium_outline age gender activity_level eer).isSome ↔
      (14 ≤ age ∧ gender ∈ validGenders ∧ activity_level ∈ validActivityLevels ∧ 0 < eer) := by
  unfold generate_potassium_outline
  rw [guard_isSome_iff]
  exact not_invalidArguments_iff age gender activity_level eer

theorem generate_selenium_isSome_iff (age : ℚ) (gender activity_level : String) (eer : ℚ) :
    (generate_selenium_outline age gender activity_level eer).isSome ↔
      (14 ≤ age ∧ gender ∈ validGenders ∧ activity_level ∈ validActivityLevels ∧ 0 < eer) := by
  unfold generate_selenium_outline
  rw [guard_isSome_iff]
  exact not_invalidArguments_iff age gender activity_level eer

theorem generate_sodium_isSome_iff (age : ℚ) (gender activity_level : String) (eer : ℚ) :
    (generate_sodium_outline age gender activity_level eer).isSome ↔
      (14 ≤ age ∧ gender ∈ validGenders ∧ activity_level ∈ validActivityLevels ∧ 0 < eer) := by
  unfold generate_sodium_outline
  rw [guard_isSome_iff]
  exact not_invalidArguments_iff age gender activity_level eer

theorem generate_zinc_isSome_iff (age : ℚ) (gender activity_level : String) (eer : ℚ) :
    (generate_zinc_outline age gender activity_level eer).isSome ↔
      (14 ≤ age ∧ gender ∈ validGenders ∧ activity_level ∈ validActivityLevels ∧ 0 < eer) := by
  unfold generate_zinc_outline
  rw [guard_isSome_iff]
  exact not_invalidArguments_iff age gender activity_level eer

theorem generate_carbohydrates_eq {age : ℚ} {gender activity_level : String} {eer : ℚ}
    (h : ¬ invalidArguments age gender activity_level eer) :
    generate_carbohydrates_outline age gender activity_level eer = some (carbohydrates_body eer) := by
  rw [generate_carbohydrates_outline, if_neg h]

theorem generate_fiber_eq {age : ℚ} {gender activity_level : String} {eer : ℚ}
    (h : ¬ invalidArguments age gender activity_level eer) :
    generate_fiber_outline age gender activity_level eer = some (fiber_body age gender activity_level eer) := by
  rw [generate_fiber_outline, if_neg h]

theorem generate_protein_eq {age : ℚ} {gender activity_level : String} {eer : ℚ}
    (h : ¬ invalidArguments age gender activity_level eer) :
    generate_protein_outline age gender activity_level eer = some (protein_body age gender activity_level eer) := by
  rw [generate_protein_outline, if_neg h]

theorem generate_fat_eq {age : ℚ} {gender activity_level : String} {eer : ℚ}
    (h : ¬ invalidArguments age gender activity_level eer) :
    generate_fat_outline age gender activity_level eer = some (fat_body eer) := by
  rw [generate_fat_outline, if_neg h]

theorem generate_vitamin_a_eq {age : ℚ} {gender activity_level : String} {eer : ℚ}
    (h : ¬ invalidArguments age gender activity_level eer) :
    generate_vitamin_a_outline age gender activity_level eer = some (vitamin_a_body age gender activity_level eer) := by
  rw [generate_vitamin_a_outline, if_neg h]

theorem generate_vitamin_c_eq {age : ℚ} {gender activity_level : String} {eer : ℚ}
    (h : ¬ invalidArguments age gender activity_level eer) :
    generate_vitamin_c_outline age gender activity_level eer = some (vitamin_c_body age gender activity_level eer) := by
  rw [generate_vitamin_c_outline, if_neg h]

theorem generate_vitamin_d_eq {age : ℚ} {gender activity_level : String} {eer : ℚ}
    (h : ¬ invalidArguments age gender activity_level eer) :
    generate_vitamin_d_outline age gender activity_level eer = some (vitamin_d_body age gender activity_level eer) := by
  rw [generate_vitamin_d_outline, if_neg h]

theorem generate_vitamin_b6_eq {age : ℚ} {gender activity_level : String} {eer : ℚ}
    (h : ¬ invalidArguments age gender activity_level eer) :
    generate_vitamin_b6_outline age gender activity_level eer = some (vitamin_b6_body age gender activity_level eer) := by
  rw [generate_vitamin_b6_outline, if_neg h]

theorem generate_vitamin_e_eq {age : ℚ} {gender activity_level : String} {eer : ℚ}
    (h : ¬ invalidArguments age gender activity_level eer) :
    generate_vitamin_e_outline age gender activity_level eer = some (vitamin_e_body age gender activity_level eer) := by
  rw [generate_vitamin_e_outline, if_neg h]

theorem generate_vitamin_k_eq {age : ℚ} {gender activity_level : String} {eer : ℚ}
    (h : ¬ invalidArguments age gender activity_level eer) :
    generate_vitamin_k_outline age gender activity_level eer = some (vitamin_k_body age gender activity_level eer) := by
  rw [generate_vitamin_k_outline, if_neg h]

theorem generate_thiamin_eq {age : ℚ} {gender activity_level : String} {eer : ℚ}
    (h : ¬ invalidArguments age gender activity_level eer) :
    generate_thiamin_outline age gender activity_level eer = some (thiamin_body age gender activity_level eer) := by
  rw [generate_thiamin_outline, if_neg h]

theorem generate_vitamin_b12_eq {age : ℚ} {gender activity_level : String} {eer : ℚ}
    (h : ¬ invalidArguments age gender activity_level eer) :
    generate_vitamin_b12_outline age gender activity_level eer = some (vitamin_b12_body gender activity_level eer) := by
  rw [generate_vitamin_b12_outline, if_neg h]

theorem generate_riboflavin_eq {age : ℚ} {gender activity_level : String} {eer : ℚ}
    (h : ¬ invalidArguments age gender activity_level eer) :
    generate_riboflavin_outline age gender activity_level eer = some (riboflavin_body age gender activity_level eer) := by
  rw [generate_riboflavin_outline, if_neg h]

theorem generate_folate_eq {age : ℚ} {gender activity_level : String} {eer : ℚ}
    (h : ¬ invalidArguments age gender activity_level eer) :
    generate_folate_outline age gender activity_level eer = some (folate_body age gender activity_level eer) := by
  rw [generate_folate_outline, if_neg h]

theorem generate_niacin_eq {age : ℚ} {gender activity_level : String} {eer : ℚ}
    (h : ¬ invalidArguments age gender activity_level eer) :
    generate_niacin_outline age gender activity_level eer = some (niacin_body age gender activity_level eer) := by
  rw [generate_niacin_outline, if_neg h]

theorem generate_choline_eq {age : ℚ} {gender activity_level : String} {eer : ℚ}
    (h : ¬ invalidArguments age gender activity_level eer) :
    generate_choline_outline age gender activity_level eer = some (choline_body age gender activity_level eer) := by
  rw [generate_choline_outline, if_neg h]

theorem generate_pantothenic_acid_eq {age : ℚ} {gender activity_level : String} {eer : ℚ}
    (h : ¬ invalidArguments age gender activity_level eer) :
    generate_pantothenic_acid_outline age gender activity_level eer = some (pantothenic_acid_body gender activity_level eer) := by
  rw [generate_pantothenic_acid_outline, if_neg h]

theorem generate_biotin_eq {age : ℚ} {gender activity_level : String} {eer : ℚ}
    (h : ¬ invalidArguments age gender activity_level eer) :
    generate_biotin_outline age gender activity_level eer = some (biotin_body age gender activity_level eer) := by
  rw [generate_biotin_outline, if_neg h]

theorem generate_calcium_eq {age : ℚ} {gender activity_level : String} {eer : ℚ}
    (h : ¬ invalidArguments age gender activity_level eer) :
    generate_calcium_outline age gender activity_level eer = some (calcium_body age gender activity_level eer) := by
  rw [generate_calcium_outline, if_neg h]

theorem generate_chloride_eq {age : ℚ} {gender activity_level : String} {eer : ℚ}
    (h : ¬ invalidArguments age gender activity_level eer) :
    generate_chloride_outline age gender activity_level eer = some (chloride_body age gender activity_level eer) := by
  rw [generate_chloride_outline, if_neg h]

theorem generate_chromium_eq {age : ℚ} {gender activity_level : String} {eer : ℚ}
    (h : ¬ invalidArguments age gender activity_level eer) :
    generate_chromium_outline age gender activity_level eer = some (chromium_body age gender activity_level eer) := by
  rw [generate_chromium_outline, if_neg h]

theorem generate_copper_eq {age : ℚ} {gender activity_level : String} {eer : ℚ}
    (h : ¬ invalidArguments age gender activity_level eer) :
    generate_copper_outline age gender activity_level eer = some (copper_body age gender activity_level eer) := by
  rw [generate_copper_outline, if_neg h]

theorem generate_fluoride_eq {age : ℚ} {gender activity_level : String} {eer : ℚ}
    (h : ¬ invalidArguments age gender activity_level eer) :
    generate_fluoride_outline age gender activity_level eer = some (fluoride_body age gender activity_level eer) := by
  rw [generate_fluoride_outline, if_neg h]

theorem generate_iodine_eq {age : ℚ} {gender activity_level : String} {eer : ℚ}
    (h : ¬ invalidArguments age gender activity_level eer) :
    generate_iodine_outline age gender activity_level eer = some (iodine_body age gender activity_level eer) := by
  rw [generate_iodine_outline, if_neg h]

theorem generate_iron_eq {age : ℚ} {gender activity_level : String} {eer : ℚ}
    (h : ¬ invalidArguments age gender activity_level eer) :
    generate_iron_outline age gender activity_level eer = some (iron_body age gender activity_level eer) := by
  rw [generate_iron_outline, if_neg h]

theorem generate_magnesium_eq {age : ℚ} {gender activity_level : String} {eer : ℚ}
    (h : ¬ invalidArguments age gender activity_level eer) :
    generate_magnesium_outline age gender activity_level eer = some (magnesium_body age gender activity_level eer) := by
  rw [generate_magnesium_outline, if_neg h]

theorem generate_manganese_eq {age : ℚ} {gender activity_level : String} {eer : ℚ}
    (h : ¬ invalidArguments age gender activity_level eer) :
    generate_manganese_outline age gender activity_level eer = some (manganese_body age gender activity_level eer) := by
  rw [generate_manganese_outline, if_neg h]

theorem generate_molybdenum_eq {age : ℚ} {gender activity_level : String} {eer : ℚ}
    (h : ¬ invalidArguments age gender activity_level eer) :
    generate_molybdenum_outline age gender activity_level eer = some (molybdenum_body age gender activity_level eer) := by
  rw [generate_molybdenum_outline, if_neg h]

theorem generate_phosphorus_eq {age : ℚ} {gender activity_level : String} {eer : ℚ}
    (h : ¬ invalidArguments age gender activity_level eer) :
    generate_phosphorus_outline age gender activity_level eer = some (phosphorus_body age gender activity_level eer) := by
  rw [generate_phosphorus_outline, if_neg h]

theorem generate_potassium_eq {age : ℚ} {gender activity_level : String} {eer : ℚ}
    (h : ¬ invalidArguments age gender activity_level eer) :
    generate_potassium_outline age gender activity_level eer = some (potassium_body age gender activity_level eer) := by
  rw [generate_potassium_outline, if_neg h]

theorem generate_selenium_eq {age : ℚ} {gender activity_level : String} {eer : ℚ}
    (h : ¬ invalidArguments age gender activity_level eer) :
    generate_selenium_outline age gender activity_level eer = some (selenium_body age gender activity_level eer) := by
  rw [generate_selenium_outline, if_neg h]

theorem generate_sodium_eq {age : ℚ} {gender activity_level : String} {eer : ℚ}
    (h : ¬ invalidArguments age gender activity_level eer) :
    generate_sodium_outline age gender activity_level eer = some (sodium_body age gender activity_level eer) := by
  rw [generate_sodium_outline, if_neg h]

theorem generate_zinc_eq {age : ℚ} {gender activity_level : String} {eer : ℚ}
    (h : ¬ invalidArguments age gender activity_level eer) :
    generate_zinc_outline age gender activity_level eer = some (zinc_body age gender activity_level eer) := by
  rw [generate_zinc_outline, if_neg h]

theorem nutritional_guideline_eq (age height weight : ℚ) (gender activity_level : String)
    (eer : ℚ) (hc : calc_EER age height weight gender activity_level = some eer)
    (heer : 0 < eer) :
    generate_nutritional_guideline age height weight gender activity_level = some (
      { macronutrients :=
          [("carbohydrates", carbohydrates_body eer),
           ("fiber", fiber_body age gender activity_level eer),
           ("protein", protein_body age gender activity_level eer),
           ("fat", fat_body eer)],
        vitamins :=
          [("vitamin_a", vitamin_a_body age gender activity_level eer),
           ("vitamin_c", vitamin_c_body age gender activity_level eer),
           ("vitamin_d", vitamin_d_body age gender activity_level eer),
           ("vitamin_b6", vitamin_b6_body age gender activity_level eer),
           ("vitamin_e", vitamin_e_body age gender activity_level eer),
           ("vitamin_k", vitamin_k_body age gender activity_level eer),
           ("thiamin", thiamin_body age gender activity_level eer),
           ("vitamin_b12", vitamin_b12_body gender activity_level eer),
           ("riboflavin", riboflavin_body age gender activity_level eer),
           ("folate", folate_body age gender activity_level eer),
           ("niacin", niacin_body age gender activity_level eer),
           ("choline", choline_body age gender activity_level eer),
           ("pantothenic_acid", pantothenic_acid_body gender activity_level eer),
           ("biotin", biotin_body age gender activity_level eer)],
        minerals :=
          [("calcium", calcium_body age gender activity_level eer),
           ("chloride", chloride_body age gender activity_level eer),
           ("chromium", chromium_body age gender activity_level eer),
           ("copper", copper_body age gender activity_level eer),
           ("fluoride", fluoride_body age gender activity_level eer),
           ("iodine", iodine_body age gender activity_level eer),
           ("iron", iron_body age gender activity_level eer),
           ("magnesium", magnesium_body age gender activity_level eer),
           ("manganese", manganese_body age gender activity_level eer),
           ("molybdenum", molybdenum_body age gender activity_level eer),
           ("phosphorus", phosphorus_body age gender activity_level eer),
           ("potassium", potassium_body age gender activity_level eer),
           ("selenium", selenium_body age gender activity_level eer),
           ("sodium", sodium_body age gender activity_level eer),
           ("zinc", zinc_body age gender activity_level eer)] } : Guideline) := by
  have hsome : (calc_EER age height weight gender activity_level).isSome := by
    rw [hc]; rfl
  obtain ⟨h1, h2, h3⟩ := (calc_EER_isSome_iff age height weight gender activity_level).mp hsome
  have hni := not_invalidArguments h1 h2 h3 heer
  unfold generate_nutritional_guideline
  rw [hc]
  simp only [generate_carbohydrates_eq hni, generate_fiber_eq hni, generate_protein_eq hni, generate_fat_eq hni, generate_vitamin_a_eq hni, generate_vitamin_c_eq hni, generate_vitamin_d_eq hni, generate_vitamin_b6_eq hni, generate_vitamin_e_eq hni, generate_vitamin_k_eq hni, generate_thiamin_eq hni, generate_vitamin_b12_eq hni, generate_riboflavin_eq hni, generate_folate_eq hni, generate_niacin_eq hni, generate_choline_eq hni, generate_pantothenic_acid_eq hni, generate_biotin_eq hni, generate_calcium_eq hni, generate_chloride_eq hni, generate_chromium_eq hni, generate_copper_eq hni, generate_fluoride_eq hni, generate_iodine_eq hni, generate_iron_eq hni, generate_magnesium_eq hni, generate_manganese_eq hni, generate_molybdenum_eq hni, generate_phosphorus_eq hni, generate_potassium_eq hni, generate_selenium_eq hni, generate_sodium_eq hni, generate_zinc_eq hni]

theorem nutritional_guideline_invalid (age height weight : ℚ) (gender activity_level : String)
    (h : invalidProfile age gender activity_level) :
    generate_nutritional_guideline age height weight gender activity_level = none := by
  unfold generate_nutritional_guideline
  have hc : calc_EER age height weight gender activity_level = none := by
    unfold calc_EER; rw [if_pos h]
  rw [hc]

/-- C7: calculate_eer(25, 170, 70, M, active) selects the adult male active
formula 1004.82 - 10.83*25 + 6.52*170 + 15.91*70 and returns 2956.17 kcal/day
(exact-rational model of the float arithmetic). -/
theorem claim_C7_eer_scenario :
    calc_EER 25 170 70 "M" "active" =
      some (1004.82 - 10.83 * 25 + 6.52 * 170 + 15.91 * 70) ∧
    (1004.82 - 10.83 * 25 + 6.52 * 170 + 15.91 * 70 : ℚ) = 2956.17 := by
  constructor
  · unfold calc_EER
    rw [if_neg (not_invalidProfile (by norm_num) (by decide) (by decide))]
    rw [if_neg (by norm_num : ¬((14:ℚ) ≤ 25 ∧ (25:ℚ) < 19))]
    rw [if_pos rfl]
    rw [if_neg (by decide : ¬("active" = "inactive")),
      if_neg (by decide : ¬("active" = "low_active")), if_pos rfl]
  · norm_num

/-- C8: calc_EER for an inactive male aged 14, height 160, weight 50 selects
the adolescent male inactive formula with the flat 20 kcal growth allowance
and returns 2363.11 kcal/day. -/
theorem claim_C8_adolescent_eer :
    calc_EER 14 160 50 "M" "inactive" =
      some (-447.51 + 3.68 * 14 + 13.01 * 160 + 13.15 * 50 + 20) ∧
    (-447.51 + 3.68 * 14 + 13.01 * 160 + 13.15 * 50 + 20 : ℚ) = 2363.11 := by
  constructor
  · unfold calc_EER
    rw [if_neg (not_invalidProfile (by norm_num) (by decide) (by decide))]
    rw [if_pos (by norm_num : (14:ℚ) ≤ 14 ∧ (14:ℚ) < 19)]
    rw [if_pos rfl]
    rw [if_pos rfl]
  · norm_num

/-- C9: generate_fat_outline(25, M, active, 2956.17) returns
recommended_intake 90, lower_limit 66, upper_limit 115, units g, each the
rounded EER fraction stated in the specification. -/
theorem claim_C9_fat_scenario :
    generate_fat_outline 25 "M" "active" 2956.17 =
      some { recommended_intake := 90, lower_limit := 66, upper_limit := 115, units := "g" } ∧
    pyRound ((0.275 : ℚ) * 2956.17 / 9) = 90 ∧
    pyRound ((0.2 : ℚ) * 2956.17 / 9) = 66 ∧
    pyRound ((0.35 : ℚ) * 2956.17 / 9) = 115 := by
  have e1 : pyRound ((0.275 : ℚ) * 2956.17 / 9) = 90 := by
    unfold pyRound; norm_num [Int.floor_eq_iff]
  have e2 : pyRound ((0.2 : ℚ) * 2956.17 / 9) = 66 := by
    unfold pyRound; norm_num [Int.floor_eq_iff]
  have e3 : pyRound ((0.35 : ℚ) * 2956.17 / 9) = 115 := by
    unfold pyRound; norm_num [Int.floor_eq_iff]
  refine ⟨?_, e1, e2, e3⟩
  rw [generate_fat_outline,
    if_neg (not_invalidArguments (by norm_num) (by decide) (by decide) (by norm_num))]
  unfold fat_body
  rw [e1, e2, e3]
  norm_num

/-- C5 counterexample: the claim that every activity multiplier table lies in
the range 1.00 to 1.20 fails on the code: the fiber table maps inactive to
0.95, below 1.00, and the protein table maps very_active to 1.5, above 1.20. -/
theorem claim_C5_counterexample :
    "inactive" ∈ validActivityLevels ∧ fiber_activity_multipliers "inactive" < 1 ∧
    "very_active" ∈ validActivityLevels ∧ 1.2 < protein_activity_multipliers "very_active" := by
  refine ⟨by decide, ?_, by decide, ?_⟩ <;>
    norm_num [fiber_activity_multipliers, protein_activity_multipliers]

/-- C5 amended: for every recognized activity level, every generator multiplier
table entry lies in 1.00 to 1.20, except that the fiber table lies in 0.95 to
1.20 (inactive being 0.95) and the protein table lies in 1.00 to 1.50 (active
1.3 and very_active 1.5). -/
theorem claim_C5_multiplier_ranges (a : String) (h : a ∈ validActivityLevels) :
    (0.95 ≤ fiber_activity_multipliers a ∧ fiber_activity_multipliers a ≤ 1.2) ∧
    (1 ≤ protein_activity_multipliers a ∧ protein_activity_multipliers a ≤ 1.5) ∧
    (1 ≤ vitamin_a_activity_multipliers a ∧ vitamin_a_activity_multipliers a ≤ 1.2) ∧
    (1 ≤ vitamin_c_activity_multipliers a ∧ vitamin_c_activity_multipliers a ≤ 1.2) ∧
    (1 ≤ vitamin_d_activity_multipliers a ∧ vitamin_d_activity_multipliers a ≤ 1.2) ∧
    (1 ≤ vitamin_b6_activity_multipliers a ∧ vitamin_b6_activity_multipliers a ≤ 1.2) ∧
    (1 ≤ vitamin_e_activity_multipliers a ∧ vitamin_e_activity_multipliers a ≤ 1.2) ∧
    (1 ≤ vitamin_k_activity_multipliers a ∧ vitamin_k_activity_multipliers a ≤ 1.2) ∧
    (1 ≤ thiamin_activity_multipliers a ∧ thiamin_activity_multipliers a ≤ 1.2) ∧
    (1 ≤ vitamin_b12_activity_multipliers a ∧ vitamin_b12_activity_multipliers a ≤ 1.2) ∧
    (1 ≤ riboflavin_activity_multipliers a ∧ riboflavin_activity_multipliers a ≤ 1.2) ∧
    (1 ≤ folate_activity_multipliers a ∧ folate_activity_multipliers a ≤ 1.2) ∧
    (1 ≤ niacin_activity_multipliers a ∧ niacin_activity_multipliers a ≤ 1.2) ∧
    (1 ≤ choline_activity_multipliers a ∧ choline_activity_multipliers a ≤ 1.2) ∧
    (1 ≤ pantothenic_acid_activity_multipliers a ∧ pantothenic_acid_activity_multipliers a ≤ 1.2) ∧
    (1 ≤ biotin_activity_multipliers a ∧ biotin_activity_multipliers a ≤ 1.2) ∧
    (1 ≤ calcium_activity_multipliers a ∧ calcium_activity_multipliers a ≤ 1.2) ∧
    (1 ≤ chloride_activity_multipliers a ∧ chloride_activity_multipliers a ≤ 1.2) ∧
    (1 ≤ chromium_activity_multipliers a ∧ chromium_activity_multipliers a ≤ 1.2) ∧
    (1 ≤ copper_activity_multipliers a ∧ copper_activity_multipliers a ≤ 1.2) ∧
    (1 ≤ fluoride_activity_multipliers a ∧ fluoride_activity_multipliers a ≤ 1.2) ∧
    (1 ≤ iodine_activity_multipliers a ∧ iodine_activity_multipliers a ≤ 1.2) ∧
    (1 ≤ iron_activity_multipliers a ∧ iron_activity_multipliers a ≤ 1.2) ∧
    (1 ≤ magnesium_activity_multipliers a ∧ magnesium_activity_multipliers a ≤ 1.2) ∧
    (1 ≤ manganese_activity_multipliers a ∧ manganese_activity_multipliers a ≤ 1.2) ∧
    (1 ≤ molybdenum_activity_multipliers a ∧ molybdenum_activity_multipliers a ≤ 1.2) ∧
    (1 ≤ phosphorus_activity_multipliers a ∧ phosphorus_activity_multipliers a ≤ 1.2) ∧
    (1 ≤ potassium_activity_multipliers a ∧ potassium_activity_multipliers a ≤ 1.2) ∧
    (1 ≤ selenium_activity_multipliers a ∧ selenium_activity_multipliers a ≤ 1.2) ∧
    (1 ≤ sodium_activity_multipliers a ∧ sodium_activity_multipliers a ≤ 1.2) ∧
    (1 ≤ zinc_activity_multipliers a ∧ zinc_activity_multipliers a ≤ 1.2) := by
  fin_cases h <;>
    norm_num [fiber_activity_multipliers, protein_activity_multipliers, vitamin_a_activity_multipliers, vitamin_c_activity_multipliers, vitamin_d_activity_multipliers, vitamin_b6_activity_multipliers, vitamin_e_activity_multipliers, vitamin_k_activity_multipliers, thiamin_activity_multipliers, vitamin_b12_activity_multipliers, riboflavin_activity_multipliers, folate_activity_multipliers, niacin_activity_multipliers, choline_activity_multipliers, pantothenic_acid_activity_multipliers, biotin_activity_multipliers, calcium_activity_multipliers, chloride_activity_multipliers, chromium_activity_multipliers, copper_activity_multipliers, fluoride_activity_multipliers, iodine_activity_multipliers, iron_activity_multipliers, magnesium_activity_multipliers, manganese_activity_multipliers, molybdenum_activity_multipliers, phosphorus_activity_multipliers, potassium_activity_multipliers, selenium_activity_multipliers, sodium_activity_multipliers, zinc_activity_multipliers]

/-- C5 witness: the amended multiplier-range theorem applied at the concrete
activity level inactive. -/
theorem claim_C5_witness :
    "inactive" ∈ validActivityLevels ∧ (
    (0.95 ≤ fiber_activity_multipliers "inactive" ∧ fiber_activity_multipliers "inactive" ≤ 1.2) ∧
    (1 ≤ protein_activity_multipliers "inactive" ∧ protein_activity_multipliers "inactive" ≤ 1.5) ∧
    (1 ≤ vitamin_a_activity_multipliers "inactive" ∧ vitamin_a_activity_multipliers "inactive" ≤ 1.2) ∧
    (1 ≤ vitamin_c_activity_multipliers "inactive" ∧ vitamin_c_activity_multipliers "inactive" ≤ 1.2) ∧
    (1 ≤ vitamin_d_activity_multipliers "inactive" ∧ vitamin_d_activity_multipliers "inactive" ≤ 1.2) ∧
    (1 ≤ vitamin_b6_activity_multipliers "inactive" ∧ vitamin_b6_activity_multipliers "inactive" ≤ 1.2) ∧
    (1 ≤ vitamin_e_activity_multipliers "inactive" ∧ vitamin_e_activity_multipliers "inactive" ≤ 1.2) ∧
    (1 ≤ vitamin_k_activity_multipliers "inactive" ∧ vitamin_k_activity_multipliers "inactive" ≤ 1.2) ∧
    (1 ≤ thiamin_activity_multipliers "inactive" ∧ thiamin_activity_multipliers "inactive" ≤ 1.2) ∧
    (1 ≤ vitamin_b12_activity_multipliers "inactive" ∧ vitamin_b12_activity_multipliers "inactive" ≤ 1.2) ∧
    (1 ≤ riboflavin_activity_multipliers "inactive" ∧ riboflavin_activity_multipliers "inactive" ≤ 1.2) ∧
    (1 ≤ folate_activity_multipliers "inactive" ∧ folate_activity_multipliers "inactive" ≤ 1.2) ∧
    (1 ≤ niacin_activity_multipliers "inactive" ∧ niacin_activity_multipliers "inactive" ≤ 1.2) ∧
    (1 ≤ choline_activity_multipliers "inactive" ∧ choline_activity_multipliers "inactive" ≤ 1.2) ∧
    (1 ≤ pantothenic_acid_activity_multipliers "inactive" ∧ pantothenic_acid_activity_multipliers "inactive" ≤ 1.2) ∧
    (1 ≤ biotin_activity_multipliers "inactive" ∧ biotin_activity_multipliers "inactive" ≤ 1.2) ∧
    (1 ≤ calcium_activity_multipliers "inactive" ∧ calcium_activity_multipliers "inactive" ≤ 1.2) ∧
    (1 ≤ chloride_activity_multipliers "inactive" ∧ chloride_activity_multipliers "inactive" ≤ 1.2) ∧
    (1 ≤ chromium_activity_multipliers "inactive" ∧ chromium_activity_multipliers "inactive" ≤ 1.2) ∧
    (1 ≤ copper_activity_multipliers "inactive" ∧ copper_activity_multipliers "inactive" ≤ 1.2) ∧
    (1 ≤ fluoride_activity_multipliers "inactive" ∧ fluoride_activity_multipliers "inactive" ≤ 1.2) ∧
    (1 ≤ iodine_activity_multipliers "inactive" ∧ iodine_activity_multipliers "inactive" ≤ 1.2) ∧
    (1 ≤ iron_activity_multipliers "inactive" ∧ iron_activity_multipliers "inactive" ≤ 1.2) ∧
    (1 ≤ magnesium_activity_multipliers "inactive" ∧ magnesium_activity_multipliers "inactive" ≤ 1.2) ∧
    (1 ≤ manganese_activity_multipliers "inactive" ∧ manganese_activity_multipliers "inactive" ≤ 1.2) ∧
    (1 ≤ molybdenum_activity_multipliers "inactive" ∧ molybdenum_activity_multipliers "inactive" ≤ 1.2) ∧
    (1 ≤ phosphorus_activity_multipliers "inactive" ∧ phosphorus_activity_multipliers "inactive" ≤ 1.2) ∧
    (1 ≤ potassium_activity_multipliers "inactive" ∧ potassium_activity_multipliers "inactive" ≤ 1.2) ∧
    (1 ≤ selenium_activity_multipliers "inactive" ∧ selenium_activity_multipliers "inactive" ≤ 1.2) ∧
    (1 ≤ sodium_activity_multipliers "inactive" ∧ sodium_activity_multipliers "inactive" ≤ 1.2) ∧
    (1 ≤ zinc_activity_multipliers "inactive" ∧ zinc_activity_multipliers "inactive" ≤ 1.2)) :=
  ⟨by decide, claim_C5_multiplier_ranges "inactive" (by decide)⟩

/-- C6: generate_protein_outline derives its upper limit from an estimated
body weight constant (60 or 50 for ages 14 to 18, otherwise 70 or 57, by
gender; the function takes no weight argument at all) times 2.0 g per kg,
floored at 2 times the computed recommendation. -/
theorem claim_C6_protein_upper (age : ℚ) (gender activity_level : String) (eer : ℚ)
    (h1 : 14 ≤ age) (h2 : gender ∈ validGenders) (h3 : activity_level ∈ validActivityLevels)
    (h4 : 0 < eer) :
    generate_protein_outline age gender activity_level eer =
      some (protein_body age gender activity_level eer) ∧
    (protein_body age gender activity_level eer).upper_limit =
      max (pyRound (2.0 * (if 14 ≤ age ∧ age ≤ 18 then (if gender = "M" then (60:ℚ) else 50)
          else (if gender = "M" then 70 else 57))) : ℚ)
        (2 * (protein_body age gender activity_level eer).recommended_intake) :=
  ⟨generate_protein_eq (not_invalidArguments h1 h2 h3 h4), rfl⟩

/-- C6 witness: the protein upper-limit theorem applied at the concrete input
age 25, male, active, EER 2956.17. -/
theorem claim_C6_witness :
    (14:ℚ) ≤ 25 ∧ "M" ∈ validGenders ∧ "active" ∈ validActivityLevels ∧ (0:ℚ) < 2956.17 ∧
    (generate_protein_outline 25 "M" "active" 2956.17 =
        some (protein_body 25 "M" "active" 2956.17) ∧
      (protein_body 25 "M" "active" 2956.17).upper_limit =
        max (pyRound (2.0 * (if (14:ℚ) ≤ 25 ∧ (25:ℚ) ≤ 18 then (if "M" = "M" then (60:ℚ) else 50)
            else (if "M" = "M" then 70 else 57))) : ℚ)
          (2 * (protein_body 25 "M" "active" 2956.17).recommended_intake)) :=
  ⟨by norm_num, by decide, by decide, by norm_num,
    claim_C6_protein_upper 25 "M" "active" 2956.17 (by norm_num) (by decide) (by decide)
      (by norm_num)⟩

/-- C1: for every valid input (age at least 14, recognized gender and activity
level, positive EER), every one of the 33 nutrient outline generators succeeds
and its outline satisfies lower_limit up to recommended_intake up to
upper_limit. -/
theorem claim_C1_outline_invariant (age : ℚ) (gender activity_level : String) (eer : ℚ)
    (h1 : 14 ≤ age) (h2 : gender ∈ validGenders) (h3 : activity_level ∈ validActivityLevels)
    (h4 : 0 < eer) :
    OutlineInv (generate_carbohydrates_outline age gender activity_level eer) ∧
    OutlineInv (generate_fiber_outline age gender activity_level eer) ∧
    OutlineInv (generate_protein_outline age gender activity_level eer) ∧
    OutlineInv (generate_fat_outline age gender activity_level eer) ∧
    OutlineInv (generate_vitamin_a_outline age gender activity_level eer) ∧
    OutlineInv (generate_vitamin_c_outline age gender activity_level eer) ∧
    OutlineInv (generate_vitamin_d_outline age gender activity_level eer) ∧
    OutlineInv (generate_vitamin_b6_outline age gender activity_level eer) ∧
    OutlineInv (generate_vitamin_e_outline age gender activity_level eer) ∧
    OutlineInv (generate_vitamin_k_outline age gender activity_level eer) ∧
    OutlineInv (generate_thiamin_outline age gender activity_level eer) ∧
    OutlineInv (generate_vitamin_b12_outline age gender activity_level eer) ∧
    OutlineInv (generate_riboflavin_outline age gender activity_level eer) ∧
    OutlineInv (generate_folate_outline age gender activity_level eer) ∧
    OutlineInv (generate_niacin_outline age gender activity_level eer) ∧
    OutlineInv (generate_choline_outline age gender activity_level eer) ∧
    OutlineInv (generate_pantothenic_acid_outline age gender activity_level eer) ∧
    OutlineInv (generate_biotin_outline age gender activity_level eer) ∧
    OutlineInv (generate_calcium_outline age gender activity_level eer) ∧
    OutlineInv (generate_chloride_outline age gender activity_level eer) ∧
    OutlineInv (generate_chromium_outline age gender activity_level eer) ∧
    OutlineInv (generate_copper_outline age gender activity_level eer) ∧
    OutlineInv (generate_fluoride_outline age gender activity_level eer) ∧
    OutlineInv (generate_iodine_outline age gender activity_level eer) ∧
    OutlineInv (generate_iron_outline age gender activity_level eer) ∧
    OutlineInv (generate_magnesium_outline age gender activity_level eer) ∧
    OutlineInv (generate_manganese_outline age gender activity_level eer) ∧
    OutlineInv (generate_molybdenum_outline age gender activity_level eer) ∧
    OutlineInv (generate_phosphorus_outline age gender activity_level eer) ∧
    OutlineInv (generate_potassium_outline age gender activity_level eer) ∧
    OutlineInv (generate_selenium_outline age gender activity_level eer) ∧
    OutlineInv (generate_sodium_outline age gender activity_level eer) ∧
    OutlineInv (generate_zinc_outline age gender activity_level eer) :=
  ⟨carbohydrates_outline_inv age gender activity_level eer h1 h2 h3 h4,
    fiber_outline_inv age gender activity_level eer h1 h2 h3 h4,
    protein_outline_inv age gender activity_level eer h1 h2 h3 h4,
    fat_outline_inv age gender activity_level eer h1 h2 h3 h4,
    vitamin_a_outline_inv age gender activity_level eer h1 h2 h3 h4,
    vitamin_c_outline_inv age gender activity_level eer h1 h2 h3 h4,
    vitamin_d_outline_inv age gender activity_level eer h1 h2 h3 h4,
    vitamin_b6_outline_inv age gender activity_level eer h1 h2 h3 h4,
    vitamin_e_outline_inv age gender activity_level eer h1 h2 h3 h4,
    vitamin_k_outline_inv age gender activity_level eer h1 h2 h3 h4,
    thiamin_outline_inv age gender activity_level eer h1 h2 h3 h4,
    vitamin_b12_outline_inv age gender activity_level eer h1 h2 h3 h4,
    riboflavin_outline_inv age gender activity_level eer h1 h2 h3 h4,
    folate_outline_inv age gender activity_level eer h1 h2 h3 h4,
    niacin_outline_inv age gender activity_level eer h1 h2 h3 h4,
    choline_outline_inv age gender activity_level eer h1 h2 h3 h4,
    pantothenic_acid_outline_inv age gender activity_level eer h1 h2 h3 h4,
    biotin_outline_inv age gender activity_level eer h1 h2 h3 h4,
    calcium_outline_inv age gender activity_level eer h1 h2 h3 h4,
    chloride_outline_inv age gender activity_level eer h1 h2 h3 h4,
    chromium_outline_inv age gender activity_level eer h1 h2 h3 h4,
    copper_outline_inv age gender activity_level eer h1 h2 h3 h4,
    fluoride_outline_inv age gender activity_level eer h1 h2 h3 h4,
    iodine_outline_inv age gender activity_level eer h1 h2 h3 h4,
    iron_outline_inv age gender activity_level eer h1 h2 h3 h4,
    magnesium_outline_inv age gender activity_level eer h1 h2 h3 h4,
    manganese_outline_inv age gender activity_level eer h1 h2 h3 h4,
    molybdenum_outline_inv age gender activity_level eer h1 h2 h3 h4,
    phosphorus_outline_inv age gender activity_level eer h1 h2 h3 h4,
    potassium_outline_inv age gender activity_level eer h1 h2 h3 h4,
    selenium_outline_inv age gender activity_level eer h1 h2 h3 h4,
    sodium_outline_inv age gender activity_level eer h1 h2 h3 h4,
    zinc_outline_inv age gender activity_level eer h1 h2 h3 h4⟩

/-- C1 witness: the invariant theorem applied at the concrete valid input
age 25, male, active, EER 2000. -/
theorem claim_C1_witness :
    (14:ℚ) ≤ 25 ∧ "M" ∈ validGenders ∧ "active" ∈ validActivityLevels ∧ (0:ℚ) < 2000 ∧
    (
      OutlineInv (generate_carbohydrates_outline 25 "M" "active" 2000) ∧
      OutlineInv (generate_fiber_outline 25 "M" "active" 2000) ∧
      OutlineInv (generate_protein_outline 25 "M" "active" 2000) ∧
      OutlineInv (generate_fat_outline 25 "M" "active" 2000) ∧
      OutlineInv (generate_vitamin_a_outline 25 "M" "active" 2000) ∧
      OutlineInv (generate_vitamin_c_outline 25 "M" "active" 2000) ∧
      OutlineInv (generate_vitamin_d_outline 25 "M" "active" 2000) ∧
      OutlineInv (generate_vitamin_b6_outline 25 "M" "active" 2000) ∧
      OutlineInv (generate_vitamin_e_outline 25 "M" "active" 2000) ∧
      OutlineInv (generate_vitamin_k_outline 25 "M" "active" 2000) ∧
      OutlineInv (generate_thiamin_outline 25 "M" "active" 2000) ∧
      OutlineInv (generate_vitamin_b12_outline 25 "M" "active" 2000) ∧
      OutlineInv (generate_riboflavin_outline 25 "M" "active" 2000) ∧
      OutlineInv (generate_folate_outline 25 "M" "active" 2000) ∧
      OutlineInv (generate_niacin_outline 25 "M" "active" 2000) ∧
      OutlineInv (generate_choline_outline 25 "M" "active" 2000) ∧
      OutlineInv (generate_pantothenic_acid_outline 25 "M" "active" 2000) ∧
      OutlineInv (generate_biotin_outline 25 "M" "active" 2000) ∧
      OutlineInv (generate_calcium_outline 25 "M" "active" 2000) ∧
      OutlineInv (generate_chloride_outline 25 "M" "active" 2000) ∧
      OutlineInv (generate_chromium_outline 25 "M" "active" 2000) ∧
      OutlineInv (generate_copper_outline 25 "M" "active" 2000) ∧
      OutlineInv (generate_fluoride_outline 25 "M" "active" 2000) ∧
      OutlineInv (generate_iodine_outline 25 "M" "active" 2000) ∧
      OutlineInv (generate_iron_outline 25 "M" "active" 2000) ∧
      OutlineInv (generate_magnesium_outline 25 "M" "active" 2000) ∧
      OutlineInv (generate_manganese_outline 25 "M" "active" 2000) ∧
      OutlineInv (generate_molybdenum_outline 25 "M" "active" 2000) ∧
      OutlineInv (generate_phosphorus_outline 25 "M" "active" 2000) ∧
      OutlineInv (generate_potassium_outline 25 "M" "active" 2000) ∧
      OutlineInv (generate_selenium_outline 25 "M" "active" 2000) ∧
      OutlineInv (generate_sodium_outline 25 "M" "active" 2000) ∧
      OutlineInv (generate_zinc_outline 25 "M" "active" 2000)) :=
  ⟨by norm_num, by decide, by decide, by norm_num,
    claim_C1_outline_invariant 25 "M" "active" 2000 (by norm_num) (by decide) (by decide)
      (by norm_num)⟩

/-- C2: calc_EER succeeds exactly on profiles with age at least 14, gender M
or F and a recognized activity level, and every one of the 33 outline
generators succeeds exactly when additionally the EER argument is positive;
on all other inputs the functions raise (return none) instead. -/
theorem claim_C2_validation_iff (age height weight eer : ℚ) (gender activity_level : String) :
    ((calc_EER age height weight gender activity_level).isSome ↔
      (14 ≤ age ∧ gender ∈ validGenders ∧ activity_level ∈ validActivityLevels)) ∧
    ((generate_carbohydrates_outline age gender activity_level eer).isSome ↔
      (14 ≤ age ∧ gender ∈ validGenders ∧ activity_level ∈ validActivityLevels ∧ 0 < eer)) ∧
    ((generate_fiber_outline age gender activity_level eer).isSome ↔
      (14 ≤ age ∧ gender ∈ validGenders ∧ activity_level ∈ validActivityLevels ∧ 0 < eer)) ∧
    ((generate_protein_outline age gender activity_level eer).isSome ↔
      (14 ≤ age ∧ gender ∈ validGenders ∧ activity_level ∈ validActivityLevels ∧ 0 < eer)) ∧
    ((generate_fat_outline age gender activity_level eer).isSome ↔
      (14 ≤ age ∧ gender ∈ validGenders ∧ activity_level ∈ validActivityLevels ∧ 0 < eer)) ∧
    ((generate_vitamin_a_outline age gender activity_level eer).isSome ↔
      (14 ≤ age ∧ gender ∈ validGenders ∧ activity_level ∈ validActivityLevels ∧ 0 < eer)) ∧
    ((generate_vitamin_c_outline age gender activity_level eer).isSome ↔
      (14 ≤ age ∧ gender ∈ validGenders ∧ activity_level ∈ validActivityLevels ∧ 0 < eer)) ∧
    ((generate_vitamin_d_outline age gender activity_level eer).isSome ↔
      (14 ≤ age ∧ gender ∈ validGenders ∧ activity_level ∈ validActivityLevels ∧ 0 < eer)) ∧
    ((generate_vitamin_b6_outline age gender activity_level eer).isSome ↔
      (14 ≤ age ∧ gender ∈ validGenders ∧ activity_level ∈ validActivityLevels ∧ 0 < eer)) ∧
    ((generate_vitamin_e_outline age gender activity_level eer).isSome ↔
      (14 ≤ age ∧ gender ∈ validGenders ∧ activity_level ∈ validActivityLevels ∧ 0 < eer)) ∧
    ((generate_vitamin_k_outline age gender activity_level eer).isSome ↔
      (14 ≤ age ∧ gender ∈ validGenders ∧ activity_level ∈ validActivityLevels ∧ 0 < eer)) ∧
    ((generate_thiamin_outline age gender activity_level eer).isSome ↔
      (14 ≤ age ∧ gender ∈ validGenders ∧ activity_level ∈ validActivityLevels ∧ 0 < eer)) ∧
    ((generate_vitamin_b12_outline age gender activity_level eer).isSome ↔
      (14 ≤ age ∧ gender ∈ validGenders ∧ activity_level ∈ validActivityLevels ∧ 0 < eer)) ∧
    ((generate_riboflavin_outline age gender activity_level eer).isSome ↔
      (14 ≤ age ∧ gender ∈ validGenders ∧ activity_level ∈ validActivityLevels ∧ 0 < eer)) ∧
    ((generate_folate_outline age gender activity_level eer).isSome ↔
      (14 ≤ age ∧ gender ∈ validGenders ∧ activity_level ∈ validActivityLevels ∧ 0 < eer)) ∧
    ((generate_niacin_outline age gender activity_level eer).isSome ↔
      (14 ≤ age ∧ gender ∈ validGenders ∧ activity_level ∈ validActivityLevels ∧ 0 < eer)) ∧
    ((generate_choline_outline age gender activity_level eer).isSome ↔
      (14 ≤ age ∧ gender ∈ validGenders ∧ activity_level ∈ validActivityLevels ∧ 0 < eer)) ∧
    ((generate_pantothenic_acid_outline age gender activity_level eer).isSome ↔
      (14 ≤ age ∧ gender ∈ validGenders ∧ activity_level ∈ validActivityLevels ∧ 0 < eer)) ∧
    ((generate_biotin_outline age gender activity_level eer).isSome ↔
      (14 ≤ age ∧ gender ∈ validGenders ∧ activity_level ∈ validActivityLevels ∧ 0 < eer)) ∧
    ((generate_calcium_outline age gender activity_level eer).isSome ↔
      (14 ≤ age ∧ gender ∈ validGenders ∧ activity_level ∈ validActivityLevels ∧ 0 < eer)) ∧
    ((generate_chloride_outline age gender activity_level eer).isSome ↔
      (14 ≤ age ∧ gender ∈ validGenders ∧ activity_level ∈ validActivityLevels ∧ 0 < eer)) ∧
    ((generate_chromium_outline age gender activity_level eer).isSome ↔
      (14 ≤ age ∧ gender ∈ validGenders ∧ activity_level ∈ validActivityLevels ∧ 0 < eer)) ∧
    ((generate_copper_outline age gender activity_level eer).isSome ↔
      (14 ≤ age ∧ gender ∈ validGenders ∧ activity_level ∈ validActivityLevels ∧ 0 < eer)) ∧
    ((generate_fluoride_outline age gender activity_level eer).isSome ↔
      (14 ≤ age ∧ gender ∈ validGenders ∧ activity_level ∈ validActivityLevels ∧ 0 < eer)) ∧
    ((generate_iodine_outline age gender activity_level eer).isSome ↔
      (14 ≤ age ∧ gender ∈ validGenders ∧ activity_level ∈ validActivityLevels ∧ 0 < eer)) ∧
    ((generate_iron_outline age gender activity_level eer).isSome ↔
      (14 ≤ age ∧ gender ∈ validGenders ∧ activity_level ∈ validActivityLevels ∧ 0 < eer)) ∧
    ((generate_magnesium_outline age gender activity_level eer).isSome ↔
      (14 ≤ age ∧ gender ∈ validGenders ∧ activity_level ∈ validActivityLevels ∧ 0 < eer)) ∧
    ((generate_manganese_outline age gender activity_level eer).isSome ↔
      (14 ≤ age ∧ gender ∈ validGenders ∧ activity_level ∈ validActivityLevels ∧ 0 < eer)) ∧
    ((generate_molybdenum_outline age gender activity_level eer).isSome ↔
      (14 ≤ age ∧ gender ∈ validGenders ∧ activity_level ∈ validActivityLevels ∧ 0 < eer)) ∧
    ((generate_phosphorus_outline age gender activity_level eer).isSome ↔
      (14 ≤ age ∧ gender ∈ validGenders ∧ activity_level ∈ validActivityLevels ∧ 0 < eer)) ∧
    ((generate_potassium_outline age gender activity_level eer).isSome ↔
      (14 ≤ age ∧ gender ∈ validGenders ∧ activity_level ∈ validActivityLevels ∧ 0 < eer)) ∧
    ((generate_selenium_outline age gender activity_level eer).isSome ↔
      (14 ≤ age ∧ gender ∈ validGenders ∧ activity_level ∈ validActivityLevels ∧ 0 < eer)) ∧
    ((generate_sodium_outline age gender activity_level eer).isSome ↔
      (14 ≤ age ∧ gender ∈ validGenders ∧ activity_level ∈ validActivityLevels ∧ 0 < eer)) ∧
    ((generate_zinc_outline age gender activity_level eer).isSome ↔
      (14 ≤ age ∧ gender ∈ validGenders ∧ activity_level ∈ validActivityLevels ∧ 0 < eer)) :=
  ⟨calc_EER_isSome_iff age height weight gender activity_level,
    generate_carbohydrates_isSome_iff age gender activity_level eer,
    generate_fiber_isSome_iff age gender activity_level eer,
    generate_protein_isSome_iff age gender activity_level eer,
    generate_fat_isSome_iff age gender activity_level eer,
    generate_vitamin_a_isSome_iff age gender activity_level eer,
    generate_vitamin_c_isSome_iff age gender activity_level eer,
    generate_vitamin_d_isSome_iff age gender activity_level eer,
    generate_vitamin_b6_isSome_iff age gender activity_level eer,
    generate_vitamin_e_isSome_iff age gender activity_level eer,
    generate_vitamin_k_isSome_iff age gender activity_level eer,
    generate_thiamin_isSome_iff age gender activity_level eer,
    generate_vitamin_b12_isSome_iff age gender activity_level eer,
    generate_riboflavin_isSome_iff age gender activity_level eer,
    generate_folate_isSome_iff age gender activity_level eer,
    generate_niacin_isSome_iff age gender activity_level eer,
    generate_choline_isSome_iff age gender activity_level eer,
    generate_pantothenic_acid_isSome_iff age gender activity_level eer,
    generate_biotin_isSome_iff age gender activity_level eer,
    generate_calcium_isSome_iff age gender activity_level eer,
    generate_chloride_isSome_iff age gender activity_level eer,
    generate_chromium_isSome_iff age gender activity_level eer,
    generate_copper_isSome_iff age gender activity_level eer,
    generate_fluoride_isSome_iff age gender activity_level eer,
    generate_iodine_isSome_iff age gender activity_level eer,
    generate_iron_isSome_iff age gender activity_level eer,
    generate_magnesium_isSome_iff age gender activity_level eer,
    generate_manganese_isSome_iff age gender activity_level eer,
    generate_molybdenum_isSome_iff age gender activity_level eer,
    generate_phosphorus_isSome_iff age gender activity_level eer,
    generate_potassium_isSome_iff age gender activity_level eer,
    generate_selenium_isSome_iff age gender activity_level eer,
    generate_sodium_isSome_iff age gender activity_level eer,
    generate_zinc_isSome_iff age gender activity_level eer⟩

/-- C3 counterexample: at the input age 100, height 1, weight 1, male,
inactive - valid per the specification (age at least 14, positive height and
weight, recognized gender and activity level) - the shared EER computed by
calc_EER is negative, so the first generator raises and
generate_nutritional_guideline fails instead of returning the assembly. -/
theorem claim_C3_counterexample :
    (14:ℚ) ≤ 100 ∧ (0:ℚ) < 1 ∧ "M" ∈ validGenders ∧ "inactive" ∈ validActivityLevels ∧
    calc_EER 100 1 1 "M" "inactive" = some (-309.33) ∧
    generate_nutritional_guideline 100 1 1 "M" "inactive" = none := by
  have hc : calc_EER 100 1 1 "M" "inactive" = some (-309.33) := by
    unfold calc_EER
    rw [if_neg (not_invalidProfile (by norm_num) (by decide) (by decide))]
    rw [if_neg (by norm_num : ¬((14:ℚ) ≤ 100 ∧ (100:ℚ) < 19))]
    rw [if_pos rfl, if_pos rfl]
    norm_num
  have hg : generate_carbohydrates_outline 100 "M" "inactive" (-309.33) = none := by
    rw [generate_carbohydrates_outline,
      if_pos (show invalidArguments 100 "M" "inactive" (-309.33) from
        Or.inr (Or.inr (Or.inr (by norm_num : ¬((-309.33:ℚ) > 0)))))]
  refine ⟨by norm_num, by norm_num, by decide, by decide, hc, ?_⟩
  unfold generate_nutritional_guideline
  rw [hc]
  simp only [hg]

/-- C3 amended: whenever calc_EER succeeds with a positive EER (which holds
for all realistic profiles but not for every input the validation accepts),
generate_nutritional_guideline returns the assembly in which every nutrient
entry equals the corresponding standalone generator applied to the one shared
EER value; each generator equation is stated alongside. When the EER is not
positive, or the profile is invalid, the aggregator yields none with no
partial aggregate (see the counterexample and the validation theorems). -/
theorem claim_C3_aggregator (age height weight : ℚ) (gender activity_level : String)
    (eer : ℚ) (hc : calc_EER age height weight gender activity_level = some eer)
    (heer : 0 < eer) :
    generate_nutritional_guideline age height weight gender activity_level = some (
      { macronutrients :=
          [("carbohydrates", carbohydrates_body eer),
           ("fiber", fiber_body age gender activity_level eer),
           ("protein", protein_body age gender activity_level eer),
           ("fat", fat_body eer)],
        vitamins :=
          [("vitamin_a", vitamin_a_body age gender activity_level eer),
           ("vitamin_c", vitamin_c_body age gender activity_level eer),
           ("vitamin_d", vitamin_d_body age gender activity_level eer),
           ("vitamin_b6", vitamin_b6_body age gender activity_level eer),
           ("vitamin_e", vitamin_e_body age gender activity_level eer),
           ("vitamin_k", vitamin_k_body age gender activity_level eer),
           ("thiamin", thiamin_body age gender activity_level eer),
           ("vitamin_b12", vitamin_b12_body gender activity_level eer),
           ("riboflavin", riboflavin_body age gender activity_level eer),
           ("folate", folate_body age gender activity_level eer),
           ("niacin", niacin_body age gender activity_level eer),
           ("choline", choline_body age gender activity_level eer),
           ("pantothenic_acid", pantothenic_acid_body gender activity_level eer),
           ("biotin", biotin_body age gender activity_level eer)],
        minerals :=
          [("calcium", calcium_body age gender activity_level eer),
           ("chloride", chloride_body age gender activity_level eer),
           ("chromium", chromium_body age gender activity_level eer),
           ("copper", copper_body age gender activity_level eer),
           ("fluoride", fluoride_body age gender activity_level eer),
           ("iodine", iodine_body age gender activity_level eer),
           ("iron", iron_body age gender activity_level eer),
           ("magnesium", magnesium_body age gender activity_level eer),
           ("manganese", manganese_body age gender activity_level eer),
           ("molybdenum", molybdenum_body age gender activity_level eer),
           ("phosphorus", phosphorus_body age gender activity_level eer),
           ("potassium", potassium_body age gender activity_level eer),
           ("selenium", selenium_body age gender activity_level eer),
           ("sodium", sodium_body age gender activity_level eer),
           ("zinc", zinc_body age gender activity_level eer)] } : Guideline) ∧
    generate_carbohydrates_outline age gender activity_level eer = some (carbohydrates_body eer) ∧
    generate_fiber_outline age gender activity_level eer = some (fiber_body age gender activity_level eer) ∧
    generate_protein_outline age gender activity_level eer = some (protein_body age gender activity_level eer) ∧
    generate_fat_outline age gender activity_level eer = some (fat_body eer) ∧
    generate_vitamin_a_outline age gender activity_level eer = some (vitamin_a_body age gender activity_level eer) ∧
    generate_vitamin_c_outline age gender activity_level eer = some (vitamin_c_body age gender activity_level eer) ∧
    generate_vitamin_d_outline age gender activity_level eer = some (vitamin_d_body age gender activity_level eer) ∧
    generate_vitamin_b6_outline age gender activity_level eer = some (vitamin_b6_body age gender activity_level eer) ∧
    generate_vitamin_e_outline age gender activity_level eer = some (vitamin_e_body age gender activity_level eer) ∧
    generate_vitamin_k_outline age gender activity_level eer = some (vitamin_k_body age gender activity_level eer) ∧
    generate_thiamin_outline age gender activity_level eer = some (thiamin_body age gender activity_level eer) ∧
    generate_vitamin_b12_outline age gender activity_level eer = some (vitamin_b12_body gender activity_level eer) ∧
    generate_riboflavin_outline age gender activity_level eer = some (riboflavin_body age gender activity_level eer) ∧
    generate_folate_outline age gender activity_level eer = some (folate_body age gender activity_level eer) ∧
    generate_niacin_outline age gender activity_level eer = some (niacin_body age gender activity_level eer) ∧
    generate_choline_outline age gender activity_level eer = some (choline_body age gender activity_level eer) ∧
    generate_pantothenic_acid_outline age gender activity_level eer = some (pantothenic_acid_body gender activity_level eer) ∧
    generate_biotin_outline age gender activity_level eer = some (biotin_body age gender activity_level eer) ∧
    generate_calcium_outline age gender activity_level eer = some (calcium_body age gender activity_level eer) ∧
    generate_chloride_outline age gender activity_level eer = some (chloride_body age gender activity_level eer) ∧
    generate_chromium_outline age gender activity_level eer = some (chromium_body age gender activity_level eer) ∧
    generate_copper_outline age gender activity_level eer = some (copper_body age gender activity_level eer) ∧
    generate_fluoride_outline age gender activity_level eer = some (fluoride_body age gender activity_level eer) ∧
    generate_iodine_outline age gender activity_level eer = some (iodine_body age gender activity_level eer) ∧
    generate_iron_outline age gender activity_level eer = some (iron_body age gender activity_level eer) ∧
    generate_magnesium_outline age gender activity_level eer = some (magnesium_body age gender activity_level eer) ∧
    generate_manganese_outline age gender activity_level eer = some (manganese_body age gender activity_level eer) ∧
    generate_molybdenum_outline age gender activity_level eer = some (molybdenum_body age gender activity_level eer) ∧
    generate_phosphorus_outline age gender activity_level eer = some (phosphorus_body age gender activity_level eer) ∧
    generate_potassium_outline age gender activity_level eer = some (potassium_body age gender activity_level eer) ∧
    generate_selenium_outline age gender activity_level eer = some (selenium_body age gender activity_level eer) ∧
    generate_sodium_outline age gender activity_level eer = some (sodium_body age gender activity_level eer) ∧
    generate_zinc_outline age gender activity_level eer = some (zinc_body age gender activity_level eer) := by
  have hsome : (calc_EER age height weight gender activity_level).isSome := by
    rw [hc]; rfl
  obtain ⟨h1, h2, h3⟩ := (calc_EER_isSome_iff age height weight gender activity_level).mp hsome
  have hni := not_invalidArguments h1 h2 h3 heer
  exact ⟨nutritional_guideline_eq age height weight gender activity_level eer hc heer,
    generate_carbohydrates_eq hni,
    generate_fiber_eq hni,
    generate_protein_eq hni,
    generate_fat_eq hni,
    generate_vitamin_a_eq hni,
    generate_vitamin_c_eq hni,
    generate_vitamin_d_eq hni,
    generate_vitamin_b6_eq hni,
    generate_vitamin_e_eq hni,
    generate_vitamin_k_eq hni,
    generate_thiamin_eq hni,
    generate_vitamin_b12_eq hni,
    generate_riboflavin_eq hni,
    generate_folate_eq hni,
    generate_niacin_eq hni,
    generate_choline_eq hni,
    generate_pantothenic_acid_eq hni,
    generate_biotin_eq hni,
    generate_calcium_eq hni,
    generate_chloride_eq hni,
    generate_chromium_eq hni,
    generate_copper_eq hni,
    generate_fluoride_eq hni,
    generate_iodine_eq hni,
    generate_iron_eq hni,
    generate_magnesium_eq hni,
    generate_manganese_eq hni,
    generate_molybdenum_eq hni,
    generate_phosphorus_eq hni,
    generate_potassium_eq hni,
    generate_selenium_eq hni,
    generate_sodium_eq hni,
    generate_zinc_eq hni⟩

/-- C3 witness: the amended aggregator theorem applied at the concrete valid
input age 25, height 170, weight 70, male, active, whose shared EER is
2956.17. -/
theorem claim_C3_witness :
    calc_EER 25 170 70 "M" "active" = some 2956.17 ∧ (0:ℚ) < 2956.17 ∧
    (generate_nutritional_guideline 25 170 70 "M" "active" = some (
      { macronutrients :=
          [("carbohydrates", carbohydrates_body 2956.17),
           ("fiber", fiber_body 25 "M" "active" 2956.17),
           ("protein", protein_body 25 "M" "active" 2956.17),
           ("fat", fat_body 2956.17)],
        vitamins :=
          [("vitamin_a", vitamin_a_body 25 "M" "active" 2956.17),
           ("vitamin_c", vitamin_c_body 25 "M" "active" 2956.17),
           ("vitamin_d", vitamin_d_body 25 "M" "active" 2956.17),
           ("vitamin_b6", vitamin_b6_body 25 "M" "active" 2956.17),
           ("vitamin_e", vitamin_e_body 25 "M" "active" 2956.17),
           ("vitamin_k", vitamin_k_body 25 "M" "active" 2956.17),
           ("thiamin", thiamin_body 25 "M" "active" 2956.17),
           ("vitamin_b12", vitamin_b12_body "M" "active" 2956.17),
           ("riboflavin", riboflavin_body 25 "M" "active" 2956.17),
           ("folate", folate_body 25 "M" "active" 2956.17),
           ("niacin", niacin_body 25 "M" "active" 2956.17),
           ("choline", choline_body 25 "M" "active" 2956.17),
           ("pantothenic_acid", pantothenic_acid_body "M" "active" 2956.17),
           ("biotin", biotin_body 25 "M" "active" 2956.17)],
        minerals :=
          [("calcium", calcium_body 25 "M" "active" 2956.17),
           ("chloride", chloride_body 25 "M" "active" 2956.17),
           ("chromium", chromium_body 25 "M" "active" 2956.17),
           ("copper", copper_body 25 "M" "active" 2956.17),
           ("fluoride", fluoride_body 25 "M" "active" 2956.17),
           ("iodine", iodine_body 25 "M" "active" 2956.17),
           ("iron", iron_body 25 "M" "active" 2956.17),
           ("magnesium", magnesium_body 25 "M" "active" 2956.17),
           ("manganese", manganese_body 25 "M" "active" 2956.17),
           ("molybdenum", molybdenum_body 25 "M" "active" 2956.17),
           ("phosphorus", phosphorus_body 25 "M" "active" 2956.17),
           ("potassium", potassium_body 25 "M" "active" 2956.17),
           ("selenium", selenium_body 25 "M" "active" 2956.17),
           ("sodium", sodium_body 25 "M" "active" 2956.17),
           ("zinc", zinc_body 25 "M" "active" 2956.17)] } : Guideline) ∧
      generate_carbohydrates_outline 25 "M" "active" 2956.17 = some (carbohydrates_body 2956.17) ∧
      generate_fiber_outline 25 "M" "active" 2956.17 = some (fiber_body 25 "M" "active" 2956.17) ∧
      generate_protein_outline 25 "M" "active" 2956.17 = some (protein_body 25 "M" "active" 2956.17) ∧
      generate_fat_outline 25 "M" "active" 2956.17 = some (fat_body 2956.17) ∧
      generate_vitamin_a_outline 25 "M" "active" 2956.17 = some (vitamin_a_body 25 "M" "active" 2956.17) ∧
      generate_vitamin_c_outline 25 "M" "active" 2956.17 = some (vitamin_c_body 25 "M" "active" 2956.17) ∧
      generate_vitamin_d_outline 25 "M" "active" 2956.17 = some (vitamin_d_body 25 "M" "active" 2956.17) ∧
      generate_vitamin_b6_outline 25 "M" "active" 2956.17 = some (vitamin_b6_body 25 "M" "active" 2956.17) ∧
      generate_vitamin_e_outline 25 "M" "active" 2956.17 = some (vitamin_e_body 25 "M" "active" 2956.17) ∧
      generate_vitamin_k_outline 25 "M" "active" 2956.17 = some (vitamin_k_body 25 "M" "active" 2956.17) ∧
      generate_thiamin_outline 25 "M" "active" 2956.17 = some (thiamin_body 25 "M" "active" 2956.17) ∧
      generate_vitamin_b12_outline 25 "M" "active" 2956.17 = some (vitamin_b12_body "M" "active" 2956.17) ∧
      generate_riboflavin_outline 25 "M" "active" 2956.17 = some (riboflavin_body 25 "M" "active" 2956.17) ∧
      generate_folate_outline 25 "M" "active" 2956.17 = some (folate_body 25 "M" "active" 2956.17) ∧
      generate_niacin_outline 25 "M" "active" 2956.17 = some (niacin_body 25 "M" "active" 2956.17) ∧
      generate_choline_outline 25 "M" "active" 2956.17 = some (choline_body 25 "M" "active" 2956.17) ∧
      generate_pantothenic_acid_outline 25 "M" "active" 2956.17 = some (pantothenic_acid_body "M" "active" 2956.17) ∧
      generate_biotin_outline 25 "M" "active" 2956.17 = some (biotin_body 25 "M" "active" 2956.17) ∧
      generate_calcium_outline 25 "M" "active" 2956.17 = some (calcium_body 25 "M" "active" 2956.17) ∧
      generate_chloride_outline 25 "M" "active" 2956.17 = some (chloride_body 25 "M" "active" 2956.17) ∧
      generate_chromium_outline 25 "M" "active" 2956.17 = some (chromium_body 25 "M" "active" 2956.17) ∧
      generate_copper_outline 25 "M" "active" 2956.17 = some (copper_body 25 "M" "active" 2956.17) ∧
      generate_fluoride_outline 25 "M" "active" 2956.17 = some (fluoride_body 25 "M" "active" 2956.17) ∧
      generate_iodine_outline 25 "M" "active" 2956.17 = some (iodine_body 25 "M" "active" 2956.17) ∧
      generate_iron_outline 25 "M" "active" 2956.17 = some (iron_body 25 "M" "active" 2956.17) ∧
      generate_magnesium_outline 25 "M" "active" 2956.17 = some (magnesium_body 25 "M" "active" 2956.17) ∧
      generate_manganese_outline 25 "M" "active" 2956.17 = some (manganese_body 25 "M" "active" 2956.17) ∧
      generate_molybdenum_outline 25 "M" "active" 2956.17 = some (molybdenum_body 25 "M" "active" 2956.17) ∧
      generate_phosphorus_outline 25 "M" "active" 2956.17 = some (phosphorus_body 25 "M" "active" 2956.17) ∧
      generate_potassium_outline 25 "M" "active" 2956.17 = some (potassium_body 25 "M" "active" 2956.17) ∧
      generate_selenium_outline 25 "M" "active" 2956.17 = some (selenium_body 25 "M" "active" 2956.17) ∧
      generate_sodium_outline 25 "M" "active" 2956.17 = some (sodium_body 25 "M" "active" 2956.17) ∧
      generate_zinc_outline 25 "M" "active" 2956.17 = some (zinc_body 25 "M" "active" 2956.17)) := by
  have hc : calc_EER 25 170 70 "M" "active" = some 2956.17 := by
    unfold calc_EER
    rw [if_neg (not_invalidProfile (by norm_num) (by decide) (by decide))]
    rw [if_neg (by norm_num : ¬((14:ℚ) ≤ 25 ∧ (25:ℚ) < 19))]
    rw [if_pos rfl]
    rw [if_neg (by decide : ¬("active" = "inactive")),
      if_neg (by decide : ¬("active" = "low_active")), if_pos rfl]
    norm_num
  exact ⟨hc, by norm_num,
    claim_C3_aggregator 25 170 70 "M" "active" 2956.17 hc (by norm_num)⟩

/-- C4: any assembly returned by generate_nutritional_guideline has exactly
the three sections macronutrients, vitamins and minerals (the fields of
Guideline), whose key lists are exactly carbohydrates, fiber, protein, fat,
the 14 vitamin keys and the 15 mineral keys, in order, with no other keys. -/
theorem claim_C4_exact_keys (age height weight : ℚ) (gender activity_level : String)
    (G : Guideline)
    (h : generate_nutritional_guideline age height weight gender activity_level = some G) :
    G.macronutrients.map Prod.fst = ["carbohydrates", "fiber", "protein", "fat"] ∧
    G.vitamins.map Prod.fst = ["vitamin_a", "vitamin_c", "vitamin_d", "vitamin_b6", "vitamin_e", "vitamin_k", "thiamin", "vitamin_b12", "riboflavin", "folate", "niacin", "choline", "pantothenic_acid", "biotin"] ∧
    G.minerals.map Prod.fst = ["calcium", "chloride", "chromium", "copper", "fluoride", "iodine", "iron", "magnesium", "manganese", "molybdenum", "phosphorus", "potassium", "selenium", "sodium", "zinc"] := by
  unfold generate_nutritional_guideline at h
  repeat' split at h
  any_goals exact Option.noConfusion h
  rw [Option.some_inj] at h
  subst h
  exact ⟨rfl, rfl, rfl⟩

/-- C4 witness: the exact-keys theorem applied to the assembly produced at the
concrete valid input age 25, height 170, weight 70, male, active. -/
theorem claim_C4_witness :
    (generate_nutritional_guideline 25 170 70 "M" "active").map
        (fun G => G.macronutrients.map Prod.fst) =
      some ["carbohydrates", "fiber", "protein", "fat"] ∧
    (generate_nutritional_guideline 25 170 70 "M" "active").map
        (fun G => G.vitamins.map Prod.fst) =
      some ["vitamin_a", "vitamin_c", "vitamin_d", "vitamin_b6", "vitamin_e", "vitamin_k", "thiamin", "vitamin_b12", "riboflavin", "folate", "niacin", "choline", "pantothenic_acid", "biotin"] ∧
    (generate_nutritional_guideline 25 170 70 "M" "active").map
        (fun G => G.minerals.map Prod.fst) =
      some ["calcium", "chloride", "chromium", "copper", "fluoride", "iodine", "iron", "magnesium", "manganese", "molybdenum", "phosphorus", "potassium", "selenium", "sodium", "zinc"] := by
  have hc : calc_EER 25 170 70 "M" "active" = some 2956.17 := by
    unfold calc_EER
    rw [if_neg (not_invalidProfile (by norm_num) (by decide) (by decide))]
    rw [if_neg (by norm_num : ¬((14:ℚ) ≤ 25 ∧ (25:ℚ) < 19))]
    rw [if_pos rfl]
    rw [if_neg (by decide : ¬("active" = "inactive")),
      if_neg (by decide : ¬("active" = "low_active")), if_pos rfl]
    norm_num
  have hG := nutritional_guideline_eq 25 170 70 "M" "active" 2956.17 hc (by norm_num)
  have hkeys := claim_C4_exact_keys 25 170 70 "M" "active" _ hG
  rw [hG]
  exact ⟨congrArg some hkeys.1, congrArg some hkeys.2.1, congrArg some hkeys.2.2⟩

/-- C10: for every age strictly between 18 and 19, calc_EER classifies the
profile as adolescent (its band test is 14 up to strictly below 19) and
returns the adolescent formulas, while the outline generators, whose
adolescent band test is 14 up to and including 18, return their 19-plus-band
values for the same profile, so the two components disagree on the age band. -/
theorem claim_C10_age_band_mismatch (age height weight eer : ℚ)
    (hlo : 18 < age) (hhi : age < 19) (heer : 0 < eer) :
    calc_EER age height weight "M" "inactive" =
      some (-447.51 + 3.68 * age + 13.01 * height + 13.15 * weight + 20) ∧
    calc_EER age height weight "F" "active" =
      some (-189.55 - 22.25 * age + 11.74 * height + 18.34 * weight + 20) ∧
    (generate_fiber_outline age "M" "inactive" eer).map Outline.lower_limit = some 24 ∧
    (generate_vitamin_a_outline age "M" "inactive" eer).map Outline.lower_limit = some 625 ∧
    (generate_protein_outline age "M" "inactive" eer).map Outline.lower_limit = some 46 ∧
    (generate_vitamin_c_outline age "M" "inactive" eer).map Outline.lower_limit = some 75 ∧
    (generate_folate_outline age "M" "inactive" eer).map Outline.upper_limit = some 1000 ∧
    (generate_niacin_outline age "M" "inactive" eer).map Outline.upper_limit = some 35 ∧
    (generate_biotin_outline age "M" "inactive" eer).map Outline.lower_limit = some 24 ∧
    (generate_copper_outline age "M" "inactive" eer).map Outline.upper_limit = some 10000 ∧
    (generate_iodine_outline age "M" "inactive" eer).map Outline.upper_limit = some 1100 ∧
    (generate_phosphorus_outline age "M" "inactive" eer).map Outline.lower_limit = some 580 := by
  have h14 : (14:ℚ) ≤ age := by linarith
  have hni : ¬ invalidArguments age "M" "inactive" eer :=
    not_invalidArguments h14 (by decide) (by decide) heer
  have hband : ¬(14 ≤ age ∧ age ≤ 18) := fun hcon => absurd hcon.2 (by linarith)
  have h50 : ¬(50 < age) := by linarith
  have e625 : pyRound ((625:ℚ)) = 625 := by unfold pyRound; norm_num
  refine ⟨?_, ?_, ?_, ?_, ?_, ?_, ?_, ?_, ?_, ?_, ?_, ?_⟩
  · unfold calc_EER
    rw [if_neg (not_invalidProfile h14 (by decide) (by decide))]
    rw [if_pos (⟨h14, hhi⟩ : (14:ℚ) ≤ age ∧ age < 19), if_pos rfl, if_pos rfl]
  · unfold calc_EER
    rw [if_neg (not_invalidProfile h14 (by decide) (by decide))]
    rw [if_pos (⟨h14, hhi⟩ : (14:ℚ) ≤ age ∧ age < 19)]
    rw [if_neg (by decide : ¬("F" = "M"))]
    rw [if_neg (by decide : ¬("active" = "inactive")),
      if_neg (by decide : ¬("active" = "low_active")), if_pos rfl]
  · simp [generate_fiber_eq hni, fiber_body, if_neg hband, if_neg h50]
  · simp [generate_vitamin_a_eq hni, vitamin_a_body, if_neg hband, e625]
  · simp [generate_protein_eq hni, protein_body, if_neg hband]
  · simp [generate_vitamin_c_eq hni, vitamin_c_body, if_neg hband]
  · simp [generate_folate_eq hni, folate_body, if_neg hband]
  · simp [generate_niacin_eq hni, niacin_body, if_neg hband]
  · simp [generate_biotin_eq hni, biotin_body, if_neg hband]
  · simp [generate_copper_eq hni, copper_body, if_neg hband]
  · simp [generate_iodine_eq hni, iodine_body, if_neg hband]
  · simp [generate_phosphorus_eq hni, phosphorus_body, if_neg hband]

/-- C10 witness: the age-band mismatch theorem applied at the concrete age
18.5 with height 160, weight 50, EER 2000. -/
theorem claim_C10_witness :
    (18:ℚ) < 18.5 ∧ (18.5:ℚ) < 19 ∧ (0:ℚ) < 2000 ∧
    (calc_EER 18.5 160 50 "M" "inactive" =
        some (-447.51 + 3.68 * 18.5 + 13.01 * 160 + 13.15 * 50 + 20) ∧
      calc_EER 18.5 160 50 "F" "active" =
        some (-189.55 - 22.25 * 18.5 + 11.74 * 160 + 18.34 * 50 + 20) ∧
      (generate_fiber_outline 18.5 "M" "inactive" 2000).map Outline.lower_limit = some 24 ∧
      (generate_vitamin_a_outline 18.5 "M" "inactive" 2000).map Outline.lower_limit =
        some 625 ∧
      (generate_protein_outline 18.5 "M" "inactive" 2000).map Outline.lower_limit = some 46 ∧
      (generate_vitamin_c_outline 18.5 "M" "inactive" 2000).map Outline.lower_limit =
        some 75 ∧
      (generate_folate_outline 18.5 "M" "inactive" 2000).map Outline.upper_limit =
        some 1000 ∧
      (generate_niacin_outline 18.5 "M" "inactive" 2000).map Outline.upper_limit = some 35 ∧
      (generate_biotin_outline 18.5 "M" "inactive" 2000).map Outline.lower_limit = some 24 ∧
      (generate_copper_outline 18.5 "M" "inactive" 2000).map Outline.upper_limit =
        some 10000 ∧
      (generate_iodine_outline 18.5 "M" "inactive" 2000).map Outline.upper_limit =
        some 1100 ∧
      (generate_phosphorus_outline 18.5 "M" "inactive" 2000).map Outline.lower_limit =
        some 580) :=
  ⟨by norm_num, by norm_num, by norm_num,
    claim_C10_age_band_mismatch 18.5 160 50 2000 (by norm_num) (by norm_num) (by norm_num)⟩

end MealPlan
